import Mathlib

/-!
# tcping: the two reporters of `statsprinter.go`

A shallow embedding of the plain-text reporter (`statsPlanePrinter`) and of the
structured-event reporter (`statsJsonPrinter`), followed by the properties of
the reporting subsystem that are settled on it.

Conventions of the embedding.

* An operation of a reporter is a function from the store (`stats`) to the list
  of its observable events, in program order: a call of one of the colour
  printers (format and arguments kept as written in the source), one JSON
  document written to standard output, or a call of one of the two interval
  tracker routines, which live in another file of the repository.
* Everything `statsprinter.go` uses but does not declare (the clock, the time
  layouts, `calcTime`, `findMinAvgMaxRttTime`, the tracker routines) is a field
  of `Env`.
* `uint` values are natural numbers, with `% 2 ^ 64` where the source adds them.
* A floating-point value is `GoFloat`: a rational, an infinity or NaN; every
  float32 / float64 operation rounds its exact result to nearest, ties to even.
-/

namespace Tcping

/-! ## Floating point -/

/-- A value of Go's `float32` or `float64`: a finite number, an infinity, or
NaN. The sign of a zero is not kept (no operation here divides by a negative
zero, and `== 0` and `omitempty` treat both zeros alike). -/
inductive GoFloat where
  | fin (q : ℚ)
  | inf (neg : Bool)
  | nan
deriving DecidableEq

/-- Nearest integer, ties to the even one. -/
def roundHalfEven (q : ℚ) : Int :=
  if q - ⌊q⌋ < 1 / 2 then ⌊q⌋
  else if 1 / 2 < q - ⌊q⌋ then ⌊q⌋ + 1
  else if ⌊q⌋ % 2 = 0 then ⌊q⌋ else ⌊q⌋ + 1

/-- IEEE 754 round-to-nearest-even of an exact result `q` into the binary format
with `p` significant bits, least normal exponent `emin` and greatest exponent
`emax`: gradual underflow below `2 ^ emin`, an infinity on overflow. -/
def roundFloat (p : Nat) (emin emax : Int) (q : ℚ) : GoFloat :=
  if q = 0 then .fin 0
  else
    let e := max (Int.log 2 |q|) emin
    let ulp : ℚ := 2 ^ (e - ((p : Int) - 1))
    let r : ℚ := roundHalfEven (q / ulp) * ulp
    if 2 ^ (emax + 1) ≤ |r| then .inf (decide (q < 0)) else .fin r

/-- Rounding into float32 (binary32). -/
def round32 (q : ℚ) : GoFloat := roundFloat 24 (-126) 127 q

/-- Rounding into float64 (binary64). -/
def round64 (q : ℚ) : GoFloat := roundFloat 53 (-1022) 1023 q

namespace GoFloat

/-- The comparison `x == 0` of the source. -/
def isZero : GoFloat → Bool
  | .fin q => decide (q = 0)
  | _ => false

/-- The comparison `x > 0`. -/
def isPos : GoFloat → Bool
  | .fin q => decide (0 < q)
  | .inf neg => !neg
  | .nan => false

/-- The comparison `x <= y`; false as soon as one side is NaN. -/
def le : GoFloat → GoFloat → Bool
  | .fin a, .fin b => decide (a ≤ b)
  | .fin _, .inf neg => !neg
  | .inf neg, .fin _ => neg
  | .inf a, .inf b => a || !b
  | _, _ => false

/-- IEEE division `x / y`, the exact quotient rounded by `rnd`: `0 / 0` and
`inf / inf` are NaN, a non-zero number over zero is an infinity. Go does not
fault on a floating-point division by zero. -/
def div (rnd : ℚ → GoFloat) : GoFloat → GoFloat → GoFloat
  | .nan, _ => .nan
  | _, .nan => .nan
  | .inf _, .inf _ => .nan
  | .inf a, .fin b => .inf (a != decide (b < 0))
  | .fin _, .inf _ => .fin 0
  | .fin a, .fin b =>
    if b = 0 then (if a = 0 then .nan else .inf (decide (a < 0)))
    else rnd (a / b)

/-- IEEE multiplication `x * y`, the exact product rounded by `rnd`. -/
def mul (rnd : ℚ → GoFloat) : GoFloat → GoFloat → GoFloat
  | .nan, _ => .nan
  | _, .nan => .nan
  | .inf a, .inf b => .inf (a != b)
  | .inf a, .fin b => if b = 0 then .nan else .inf (a != decide (b < 0))
  | .fin a, .inf b => if a = 0 then .nan else .inf (decide (a < 0) != b)
  | .fin a, .fin b => rnd (a * b)

/-- IEEE addition `x + y`, the exact sum rounded by `rnd`. -/
def add (rnd : ℚ → GoFloat) : GoFloat → GoFloat → GoFloat
  | .nan, _ => .nan
  | _, .nan => .nan
  | .inf a, .inf b => if a = b then .inf a else .nan
  | .inf a, .fin _ => .inf a
  | .fin _, .inf b => .inf b
  | .fin a, .fin b => rnd (a + b)

/-- The function `math.Ceil`: the least integer not below `x`; infinities and
NaN are returned unchanged. The result is exact in float64. -/
def ceil : GoFloat → GoFloat
  | .fin q => .fin ⌈q⌉
  | x => x

end GoFloat

/-- The modulus of `uint` arithmetic (64-bit platforms). -/
def uintModulus : Nat := 2 ^ 64

/-- The conversion `float32(n)` of an unsigned integer. -/
def float32OfUint (n : Nat) : GoFloat := round32 n

/-- The conversion `float64(n)` of a signed integer. -/
def float64OfInt (n : Int) : GoFloat := round64 n

/-- The conversion `uint(x)` of a float: the fraction is discarded; when the
truncated value is not a `uint` the language leaves the result to the
implementation, here to the parameter `unrepresentable`. -/
def uintOfFloat (unrepresentable : GoFloat → Nat) : GoFloat → Nat
  | .fin q =>
    if 0 ≤ q ∧ q < 2 ^ 64 then ⌊q⌋.toNat
    else if -1 < q ∧ q < 0 then 0
    else unrepresentable (.fin q)
  | x => unrepresentable x

/-! ## Time -/

/-- An instant (`time.Time`), in nanoseconds since the zero time, January 1 of
year 1, 00:00:00 UTC. Location and monotonic reading are not kept. -/
abbrev Time := Int

/-- An elapsed time (`time.Duration`), an int64 count of nanoseconds. -/
abbrev Duration := Int

/-- The largest `time.Duration`. -/
def maxDuration : Duration := 2 ^ 63 - 1

/-- The smallest `time.Duration`. -/
def minDuration : Duration := -(2 ^ 63)

/-- The method `Time.Sub`: `t - u`, saturated to the range of `Duration`. -/
def Time.Sub (t u : Time) : Duration := max minDuration (min maxDuration (t - u))

/-- The method `Time.IsZero`. -/
def Time.IsZero (t : Time) : Bool := decide (t = 0)

/-- The method `Time.Add`, the sum taken exactly. -/
def Time.Add (t : Time) (d : Duration) : Time := t + d

/-- The method `Duration.Seconds`: `float64(d / Second) + float64(d % Second) / 1e9`,
with Go's truncating integer division. -/
def Duration.Seconds (d : Duration) : GoFloat :=
  GoFloat.add round64 (float64OfInt (d.tdiv 1000000000))
    (GoFloat.div round64 (float64OfInt (d.tmod 1000000000)) (.fin 1000000000))

/-! ## Formatting (`fmt`) -/

/-- An argument of a formatted print. -/
inductive Arg where
  | str (s : String)
  | uint (n : Nat)
  | float (x : GoFloat)
deriving DecidableEq

/-- The text `s` padded on the left with zeros to `width` characters. -/
def padZeros (width : Nat) (s : String) : String :=
  String.mk (List.replicate (width - s.length) '0') ++ s

/-- The verb `%.Nf` (N = `prec`): the decimal expansion of the exact value,
rounded to `prec` fractional digits, ties to even. -/
def fmtFixed (prec : Nat) : GoFloat → String
  | .nan => "NaN"
  | .inf false => "+Inf"
  | .inf true => "-Inf"
  | .fin q =>
    let n := (roundHalfEven (|q| * 10 ^ prec)).toNat
    (if q < 0 then "-" else "") ++ toString (n / 10 ^ prec) ++
      (if prec = 0 then "" else "." ++ padZeros prec (toString (n % 10 ^ prec)))

/-- The expansion of a format over its arguments, for the verbs and argument
kinds that occur together in `statsprinter.go`: `%s` and `%v` with a string,
`%d` with an unsigned integer, `%.Nf` with a float, and `%%`. Any other
character is copied. -/
def sprintfAux : List Char → List Arg → List Char
  | '%' :: '%' :: cs, as => '%' :: sprintfAux cs as
  | '%' :: '.' :: d :: 'f' :: cs, .float x :: as =>
    (fmtFixed (d.toNat - 48) x).toList ++ sprintfAux cs as
  | '%' :: 's' :: cs, .str s :: as => s.toList ++ sprintfAux cs as
  | '%' :: 'v' :: cs, .str s :: as => s.toList ++ sprintfAux cs as
  | '%' :: 'd' :: cs, .uint n :: as => (toString n).toList ++ sprintfAux cs as
  | c :: cs, as => c :: sprintfAux cs as
  | [], _ => []

/-- The function `fmt.Sprintf`. -/
def Sprintf (format : String) (args : List Arg) : String :=
  String.mk (sprintfAux format.toList args)

/-! ## JSON encoding (`encoding/json`) -/

/-- A value of an encoded JSON object. -/
inductive JSONValue where
  | str (s : String)
  | bool (b : Bool)
  | uint (n : Nat)
  | number (q : ℚ)
  | time (t : Time)
deriving DecidableEq

/-- One encoded JSON object: its fields, in the order written. -/
abbrev Record := List (String × JSONValue)

/-- The value of field `key` of an encoded object, `none` when the object has no
such field. -/
def Record.get : Record → String → Option JSONValue
  | [], _ => none
  | (k, v) :: r, key => if k = key then some v else Record.get r key

/-- Whether an encoded object has the field `key`. -/
def Record.has (r : Record) (key : String) : Bool := (r.get key).isSome

/-- A string field tagged `omitempty`: left out when empty. -/
def omitEmptyString (key : String) (s : String) : Record :=
  if s = "" then [] else [(key, .str s)]

/-- An unsigned field tagged `omitempty`: left out when zero. -/
def omitEmptyUint (key : String) (n : Nat) : Record :=
  if n = 0 then [] else [(key, .uint n)]

/-- A `*bool` field tagged `omitempty`: left out when the pointer is nil. -/
def omitEmptyBoolPtr (key : String) : Option Bool → Record
  | none => []
  | some b => [(key, .bool b)]

/-- A `*time.Time` field tagged `omitempty`: left out when the pointer is nil. -/
def omitEmptyTimePtr (key : String) : Option Time → Record
  | none => []
  | some t => [(key, .time t)]

/-- A float field tagged `omitempty`: left out when it equals zero; the encoder
refuses NaN and the infinities (`UnsupportedValueError`), and then nothing of
the object is written. -/
def omitEmptyFloat (key : String) : GoFloat → Option Record
  | .fin q => some (if q = 0 then [] else [(key, .number q)])
  | _ => none

/-- The type `JSONEventType`, a string type. -/
abbrev JSONEventType := String

/-- The constant `Start`. -/
def Start : JSONEventType := "start"

/-- The constant `Probe`. -/
def Probe : JSONEventType := "probe"

/-- The constant `Retry`. -/
def Retry : JSONEventType := "retry"

/-- The constant `Stats`. -/
def Stats : JSONEventType := "stats"

/-- The struct `JSONData`; a field left out of a composite literal has its zero
value, and a pointer field is an `Option` (`none` for nil) holding the value
pointed to when the object is encoded. The field `Type` is named `Type_`. -/
structure JSONData where
  Type_ : JSONEventType := ""
  Message : String := ""
  Timestamp : Time := 0
  Success : Option Bool := none
  Latency : GoFloat := .fin 0
  Addr : String := ""
  Hostname : String := ""
  IsIP : Option Bool := none
  LastSuccessfulProbe : Option Time := none
  LastUnsuccessfulProbe : Option Time := none
  LongestUptime : GoFloat := .fin 0
  LongestUptimeEnd : Option Time := none
  LongestUptimeStart : Option Time := none
  Port : Nat := 0
  TotalPacketLoss : GoFloat := .fin 0
  TotalPackets : Nat := 0
  TotalSuccessfulProbes : Nat := 0
  TotalUnsuccessfulProbes : Nat := 0
  TotalUptime : GoFloat := .fin 0
  TotalDowntime : GoFloat := .fin 0

/-- The encoding of a `JSONData` by `encoding/json`, following the struct tags:
`type`, `message` and `timestamp` are always written, every other field is
tagged `omitempty`; `none` when the encoder returns an error. -/
def JSONData.encode (d : JSONData) : Option Record :=
  match omitEmptyFloat "latency" d.Latency, omitEmptyFloat "longest_uptime" d.LongestUptime,
      omitEmptyFloat "total_packet_loss" d.TotalPacketLoss,
      omitEmptyFloat "total_uptime" d.TotalUptime,
      omitEmptyFloat "total_downtime" d.TotalDowntime with
  | some latency, some longestUptime, some totalPacketLoss, some totalUptime,
      some totalDowntime =>
    some ([("type", .str d.Type_), ("message", .str d.Message),
        ("timestamp", .time d.Timestamp)]
      ++ omitEmptyBoolPtr "success" d.Success
      ++ latency
      ++ omitEmptyString "addr" d.Addr
      ++ omitEmptyString "hostname" d.Hostname
      ++ omitEmptyBoolPtr "is_ip" d.IsIP
      ++ omitEmptyTimePtr "last_successful_probe" d.LastSuccessfulProbe
      ++ omitEmptyTimePtr "last_unsuccessful_probe" d.LastUnsuccessfulProbe
      ++ longestUptime
      ++ omitEmptyTimePtr "longest_uptime_end" d.LongestUptimeEnd
      ++ omitEmptyTimePtr "longest_uptime_start" d.LongestUptimeStart
      ++ omitEmptyUint "port" d.Port
      ++ totalPacketLoss
      ++ omitEmptyUint "total_packets" d.TotalPackets
      ++ omitEmptyUint "total_successful_probes" d.TotalSuccessfulProbes
      ++ omitEmptyUint "total_unsuccessful_probes" d.TotalUnsuccessfulProbes
      ++ totalUptime
      ++ totalDowntime)
  | _, _, _, _, _ => none

/-! ## The store and what the reporters take from the rest of the program -/

/-- The constant `noReply`. -/
def noReply : String := "No reply"

/-- The resolved address of the target. Its type is declared outside
`statsprinter.go`, which only calls `String()` on it; the standard address
types render every value, the zero one included, as a non-empty text. -/
structure ipAddress where
  text : String
  nonempty : text ≠ ""

/-- The method `String` of the address. -/
def ipAddress.String (ip : ipAddress) : String := ip.text

/-- The struct `longestTime` (declared outside `statsprinter.go`): a tracked
longest interval, its duration in seconds as a float64. The field `end` is
named `finish`. -/
structure longestTime where
  start : Time
  finish : Time
  duration : GoFloat

/-- The struct `rttResults` (declared outside `statsprinter.go`). -/
structure rttResults where
  min : GoFloat
  max : GoFloat
  average : GoFloat
  hasResults : Bool

/-- The struct `replyMsg` (declared outside `statsprinter.go`): the text of a
probe reply and its round-trip time in milliseconds, a float32. -/
structure replyMsg where
  msg : String
  rtt : GoFloat

/-- The struct `stats` (declared outside `statsprinter.go`): the fields the
reporters read, with the types their uses in `statsprinter.go` give them, and
`startOfUptime`, the start of the open up period the tracker measures from. -/
structure stats where
  startTime : Time
  endTime : Time
  startOfUptime : Time
  startOfDowntime : Time
  lastSuccessfulProbe : Time
  lastUnsuccessfulProbe : Time
  ip : ipAddress
  hostname : String
  port : Nat
  isIP : Bool
  wasDown : Bool
  rtt : List GoFloat
  longestUptime : longestTime
  longestDowntime : longestTime
  totalSuccessfulProbes : Nat
  totalUnsuccessfulProbes : Nat
  retriedHostnameResolves : Nat
  totalUptime : Duration
  totalDowntime : Duration

/-- What `statsprinter.go` uses and does not declare.

* `now`: the instant `time.Now()` returns while the operation runs;
* `Format`: the method `Time.Format`, and the layouts `timeFormat`,
  `nullTimeFormat`, `hourFormat`;
* `calcTime`: the rendering of a whole number of seconds;
* `findMinAvgMaxRttTime`: the RTT aggregator;
* `longestUptimeAfter s t`, `longestDowntimeAfter s t`: the longest interval
  stored after `calcLongestUptime(s, t)`, `calcLongestDowntime(s, t)`;
* `uintOfUnrepresentable`: the result of `uint(x)` where the language leaves it
  to the implementation. -/
structure Env where
  now : Time
  Format : Time → String → String
  timeFormat : String
  nullTimeFormat : String
  hourFormat : String
  calcTime : Nat → String
  findMinAvgMaxRttTime : List GoFloat → rttResults
  longestUptimeAfter : stats → Time → longestTime
  longestDowntimeAfter : stats → Time → longestTime
  uintOfUnrepresentable : GoFloat → Nat

/-- Modelled from the spec: `calcLongestUptime` is declared outside
`statsprinter.go`. By §4.1 the tracker's only effect is to replace the stored
longest interval of the matching kind; which interval is stored afterwards is
the parameter `longestUptimeAfter`. -/
def calcLongestUptime (env : Env) (tcpStats : stats) (endOfUptime : Time) : stats :=
  { tcpStats with longestUptime := env.longestUptimeAfter tcpStats endOfUptime }

/-- Modelled from the spec: `calcLongestDowntime` is declared outside
`statsprinter.go`. By §4.1 the tracker's only effect is to replace the stored
longest interval of the matching kind; which interval is stored afterwards is
the parameter `longestDowntimeAfter`. -/
def calcLongestDowntime (env : Env) (tcpStats : stats) (endOfDowntime : Time) : stats :=
  { tcpStats with longestDowntime := env.longestDowntimeAfter tcpStats endOfDowntime }

/-- The function `time.Since`. -/
def Since (env : Env) (t : Time) : Duration := Time.Sub env.now t

/-- The conversion `uint(x)` of a float. -/
def toUint (env : Env) (x : GoFloat) : Nat := uintOfFloat env.uintOfUnrepresentable x

/-! ## Observable events -/

/-- The colour printers of `statsprinter.go`. -/
inductive Color where
  | yellow | green | red | cyan | lightYellow | lightBlue | lightGreen | lightCyan
deriving DecidableEq

/-- One observable step of a reporter operation. -/
inductive Event where
  /-- A call `colorX(format, args...)`. -/
  | print (color : Color) (format : String) (args : List Arg)
  /-- One JSON object written to standard output, on a line of its own. -/
  | json (line : Record)
  /-- A call `calcLongestUptime(stats, endOfUptime)`. -/
  | longestUptimeUpdate (endOfUptime : Time)
  /-- A call `calcLongestDowntime(stats, endOfDowntime)`. -/
  | longestDowntimeUpdate (endOfDowntime : Time)
deriving DecidableEq

/-- The text a colour-printer call writes. -/
def Event.text : Event → String
  | .print _ format args => Sprintf format args
  | _ => ""

/-- The calls of the interval tracker among the events, in order. -/
def trackerCalls (events : List Event) : List Event :=
  events.filter fun e =>
    match e with
    | .longestUptimeUpdate _ => true
    | .longestDowntimeUpdate _ => true
    | _ => false

/-- The JSON objects among the events, in order. -/
def jsonLines : List Event → List Record
  | [] => []
  | .json r :: es => r :: jsonLines es
  | _ :: es => jsonLines es

/-- The sum `totalSuccessfulProbes + totalUnsuccessfulProbes` of two `uint`s. -/
def totalPackets (p : stats) : Nat :=
  (p.totalSuccessfulProbes + p.totalUnsuccessfulProbes) % uintModulus

/-- The expression
`(float32(totalUnsuccessfulProbes) / float32(totalPackets)) * 100`, float32
throughout, that both `printStatistics` assign to `packetLoss`. -/
def packetLoss (p : stats) : GoFloat :=
  GoFloat.mul round32
    (GoFloat.div round32 (float32OfUint p.totalUnsuccessfulProbes) (float32OfUint (totalPackets p)))
    (.fin 100)

/-- The store after the tracker call of `printStatistics`: the open period is
an up period when `wasDown` is false, a down period otherwise. -/
def finalUpdate (env : Env) (p : stats) : stats :=
  if !p.wasDown then calcLongestUptime env p p.lastSuccessfulProbe
  else calcLongestDowntime env p p.lastUnsuccessfulProbe

/-- The tracker call of `printStatistics`, as an event. -/
def finalUpdateCall (p : stats) : Event :=
  if !p.wasDown then .longestUptimeUpdate p.lastSuccessfulProbe
  else .longestDowntimeUpdate p.lastUnsuccessfulProbe

/-! ## The plain-text reporter -/

namespace statsPlanePrinter

/-- The method `statsPlanePrinter.printStart`. -/
def printStart (p : stats) : List Event :=
  [.print .lightCyan "TCPinging %s on port %d\n" [.str p.hostname, .uint p.port]]

/-- The method `statsPlanePrinter.printLastSucUnsucProbes`. -/
def printLastSucUnsucProbes (env : Env) (p : stats) : List Event :=
  let formattedLastSuccessfulProbe := env.Format p.lastSuccessfulProbe env.timeFormat
  let formattedLastUnsuccessfulProbe := env.Format p.lastUnsuccessfulProbe env.timeFormat
  [.print .yellow "last successful probe:   " []]
    ++ (if formattedLastSuccessfulProbe = env.nullTimeFormat then
          [.print .red "Never succeeded\n" []]
        else [.print .green "%v\n" [.str formattedLastSuccessfulProbe]])
    ++ [.print .yellow "last unsuccessful probe: " []]
    ++ (if formattedLastUnsuccessfulProbe = env.nullTimeFormat then
          [.print .green "Never failed\n" []]
        else [.print .red "%v\n" [.str formattedLastUnsuccessfulProbe]])

/-- The method `statsPlanePrinter.printDurationStats`. -/
def printDurationStats (env : Env) (p : stats) : List Event :=
  let running := env.Format p.endTime env.timeFormat = env.nullTimeFormat
  let durationDiff : Duration :=
    if running then Since env p.startTime else Time.Sub p.endTime p.startTime
  let duration : Time := Time.Add 0 durationDiff
  [.print .yellow "--------------------------------------\n" [],
    .print .yellow "TCPing started at: %v\n" [.str (env.Format p.startTime env.timeFormat)]]
    ++ (if running then []
        else [.print .yellow "TCPing ended at:   %v\n"
          [.str (env.Format p.endTime env.timeFormat)]])
    ++ [.print .yellow "duration (HH:MM:SS): %v\n\n" [.str (env.Format duration env.hourFormat)]]

/-- The method `statsPlanePrinter.printRttResults`. -/
def printRttResults (rtt : rttResults) : List Event :=
  [.print .yellow "rtt " [], .print .green "min" [], .print .yellow "/" [],
    .print .cyan "avg" [], .print .yellow "/" [], .print .red "max: " [],
    .print .green "%.3f" [.float rtt.min], .print .yellow "/" [],
    .print .cyan "%.3f" [.float rtt.average], .print .yellow "/" [],
    .print .red "%.3f" [.float rtt.max], .print .yellow " ms\n" []]

/-- The method `statsPlanePrinter.printReply`. -/
def printReply (p : stats) (replyMsg : replyMsg) : List Event :=
  if p.isIP then
    if replyMsg.msg = noReply then
      [.print .red "%s from %s on port %d TCP_conn=%d\n"
        [.str replyMsg.msg, .str p.ip.String, .uint p.port, .uint p.totalUnsuccessfulProbes]]
    else
      [.print .lightGreen "%s from %s on port %d TCP_conn=%d time=%.3f ms\n"
        [.str replyMsg.msg, .str p.ip.String, .uint p.port, .uint p.totalSuccessfulProbes,
          .float replyMsg.rtt]]
  else
    if replyMsg.msg = noReply then
      [.print .red "%s from %s (%s) on port %d TCP_conn=%d\n"
        [.str replyMsg.msg, .str p.hostname, .str p.ip.String, .uint p.port,
          .uint p.totalUnsuccessfulProbes]]
    else
      [.print .lightGreen "%s from %s (%s) on port %d TCP_conn=%d time=%.3f ms\n"
        [.str replyMsg.msg, .str p.hostname, .str p.ip.String, .uint p.port,
          .uint p.totalSuccessfulProbes, .float replyMsg.rtt]]

/-- The method `statsPlanePrinter.printTotalDownTime`; the body reads the clock
(`time.Since`) and does not mention its parameter `now`. -/
def printTotalDownTime (env : Env) (p : stats) (_now : Time) : List Event :=
  let latestDowntimeDuration := Duration.Seconds (Since env p.startOfDowntime)
  let calculatedDowntime := env.calcTime (toUint env (GoFloat.ceil latestDowntimeDuration))
  [.print .yellow "No response received for %s\n" [.str calculatedDowntime]]

/-- The method `statsPlanePrinter.printLongestUptime`. -/
def printLongestUptime (env : Env) (p : stats) : List Event :=
  if p.longestUptime.duration.isZero then []
  else
    let uptime := env.calcTime (toUint env (GoFloat.ceil p.longestUptime.duration))
    [.print .yellow "longest consecutive uptime:   " [],
      .print .green "%v " [.str uptime],
      .print .yellow "from " [],
      .print .lightBlue "%v " [.str (env.Format p.longestUptime.start env.timeFormat)],
      .print .yellow "to " [],
      .print .lightBlue "%v\n" [.str (env.Format p.longestUptime.finish env.timeFormat)]]

/-- The method `statsPlanePrinter.printLongestDowntime`. -/
def printLongestDowntime (env : Env) (p : stats) : List Event :=
  if p.longestDowntime.duration.isZero then []
  else
    let downtime := env.calcTime (toUint env (GoFloat.ceil p.longestDowntime.duration))
    [.print .yellow "longest consecutive downtime: " [],
      .print .red "%v " [.str downtime],
      .print .yellow "from " [],
      .print .lightBlue "%v " [.str (env.Format p.longestDowntime.start env.timeFormat)],
      .print .yellow "to " [],
      .print .lightBlue "%v\n" [.str (env.Format p.longestDowntime.finish env.timeFormat)]]

/-- The method `statsPlanePrinter.printRetryResolveStats`. -/
def printRetryResolveStats (p : stats) : List Event :=
  [.print .yellow "retried to resolve hostname " [],
    .print .red "%d " [.uint p.retriedHostnameResolves],
    .print .yellow "times\n" []]

/-- The method `statsPlanePrinter.printRetryingToResolve`. -/
def printRetryingToResolve (p : stats) : List Event :=
  [.print .lightYellow "retrying to resolve %s\n" [.str p.hostname]]

/-- The colour printer `printStatistics` picks for the packet-loss figure. -/
def packetLossColor (packetLoss : GoFloat) : Color :=
  if packetLoss.isZero then .green
  else if packetLoss.isPos && packetLoss.le (.fin 30) then .lightYellow
  else .red

/-- The method `statsPlanePrinter.printStatistics`: the store it leaves (the
tracker writes through the shared pointer) and its events. -/
def printStatistics (env : Env) (p : stats) : stats × List Event :=
  let totalPackets := totalPackets p
  let totalUptime := env.calcTime (toUint env (Duration.Seconds p.totalUptime))
  let totalDowntime := env.calcTime (toUint env (Duration.Seconds p.totalDowntime))
  let packetLoss := packetLoss p
  let p1 := finalUpdate env p
  let rttResults := env.findMinAvgMaxRttTime p1.rtt
  (p1,
    (if !p.isIP then
        [.print .yellow "\n--- %s (%s) TCPing statistics ---\n"
          [.str p.hostname, .str p.ip.String]]
      else [.print .yellow "\n--- %s TCPing statistics ---\n" [.str p.hostname]])
    ++ [.print .yellow "%d probes transmitted on port %d | " [.uint totalPackets, .uint p.port],
        .print .yellow "%d received, " [.uint p.totalSuccessfulProbes],
        .print (packetLossColor packetLoss) "%.2f%%" [.float packetLoss],
        .print .yellow " packet loss\n" [],
        .print .yellow "successful probes:   " [],
        .print .green "%d\n" [.uint p.totalSuccessfulProbes],
        .print .yellow "unsuccessful probes: " [],
        .print .red "%d\n" [.uint p.totalUnsuccessfulProbes]]
    ++ printLastSucUnsucProbes env p
    ++ [.print .yellow "total uptime: " [],
        .print .green "  %s\n" [.str totalUptime],
        .print .yellow "total downtime: " [],
        .print .red "%s\n" [.str totalDowntime]]
    ++ [finalUpdateCall p]
    ++ printLongestUptime env p1
    ++ printLongestDowntime env p1
    ++ (if !p1.isIP then printRetryResolveStats p1 else [])
    ++ (if rttResults.hasResults then printRttResults rttResults else [])
    ++ printDurationStats env p1)

end statsPlanePrinter

/-! ## The structured-event reporter -/

/-- The function `printJson`, `Encode` on standard output: one object on a line,
or nothing when the encoder returns an error (the callers discard it). -/
def printJson (data : JSONData) : List Event :=
  match data.encode with
  | some line => [.json line]
  | none => []

/-- The function `jsonPrintf`: an object whose only field is `message`. -/
def jsonPrintf (format : String) (args : List Arg) : List Event :=
  [.json [("message", .str (Sprintf format args))]]

namespace statsJsonPrinter

/-- The method `statsJsonPrinter.printStart`. -/
def printStart (env : Env) (j : stats) : List Event :=
  printJson {
    Type_ := Start
    Message := Sprintf "TCPinging %s on port %d" [.str j.hostname, .uint j.port]
    Hostname := j.hostname
    Port := j.port
    Timestamp := env.now }

/-- The value of `data` that `statsJsonPrinter.printReply` hands to `printJson`. -/
def replyData (env : Env) (j : stats) (replyMsg : replyMsg) : JSONData :=
  let data : JSONData := {
    Type_ := Probe
    Addr := j.ip.String
    Port := j.port
    IsIP := some true
    Success := some false
    Timestamp := env.now }
  let ipStr := data.Addr
  let data : JSONData :=
    if !j.isIP then { data with Hostname := j.hostname, IsIP := some false } else data
  let ipStr :=
    if !j.isIP then Sprintf "%s (%s)" [.str data.Hostname, .str ipStr] else ipStr
  let data : JSONData :=
    { data with
      Message := Sprintf "%s from %s on port %d" [.str replyMsg.msg, .str ipStr, .uint j.port] }
  if replyMsg.msg ≠ noReply then
    { data with
      Latency := replyMsg.rtt
      TotalSuccessfulProbes := j.totalSuccessfulProbes
      Success := some true }
  else
    { data with TotalUnsuccessfulProbes := j.totalUnsuccessfulProbes }

/-- The method `statsJsonPrinter.printReply`. -/
def printReply (env : Env) (j : stats) (replyMsg : replyMsg) : List Event :=
  printJson (replyData env j replyMsg)

/-- The method `statsJsonPrinter.printDurationStats`. -/
def printDurationStats (env : Env) (j : stats) : List Event :=
  let running := env.Format j.endTime env.timeFormat = env.nullTimeFormat
  let startMSg := Sprintf "started at: %v " [.str (env.Format j.startTime env.timeFormat)]
  let endMsg :=
    if running then "still running"
    else Sprintf "ended at: %v " [.str (env.Format j.endTime env.timeFormat)]
  let durationDiff : Duration :=
    if running then Since env j.startTime else Time.Sub j.endTime j.startTime
  let duration : Time := Time.Add 0 durationDiff
  let durationFormatted :=
    Sprintf "duration (HH:MM:SS): %v" [.str (env.Format duration env.hourFormat)]
  jsonPrintf (startMSg ++ endMsg ++ durationFormatted) []

/-- The method `statsJsonPrinter.printTotalDownTime`; the body reads the clock
(`time.Since`) and does not mention its parameter `now`. -/
def printTotalDownTime (env : Env) (j : stats) (_now : Time) : List Event :=
  let latestDowntimeDuration := Duration.Seconds (Since env j.startOfDowntime)
  let calculatedDowntime := env.calcTime (toUint env (GoFloat.ceil latestDowntimeDuration))
  jsonPrintf "No response received for %s" [.str calculatedDowntime]

/-- The method `statsJsonPrinter.printLongestDowntime`. -/
def printLongestDowntime (env : Env) (j : stats) : List Event :=
  if j.longestDowntime.duration.isZero then []
  else
    let downtime := env.calcTime (toUint env (GoFloat.ceil j.longestDowntime.duration))
    let longestDowntimeStart := env.Format j.longestDowntime.start env.timeFormat
    let longestDowntimeEnd := env.Format j.longestDowntime.finish env.timeFormat
    jsonPrintf "longest consecutive downtime: %v from %v to %v"
      [.str downtime, .str longestDowntimeStart, .str longestDowntimeEnd]

/-- The method `statsJsonPrinter.printRetryResolveStats`. -/
def printRetryResolveStats (j : stats) : List Event :=
  jsonPrintf "retried to resolve hostname %d times" [.uint j.retriedHostnameResolves]

/-- The method `statsJsonPrinter.printRetryingToResolve`. -/
def printRetryingToResolve (env : Env) (j : stats) : List Event :=
  printJson {
    Type_ := Retry
    Message := Sprintf "retrying to resolve %s" [.str j.hostname]
    Hostname := j.hostname
    Timestamp := env.now }

/-- The value of `data` that `statsJsonPrinter.printStatistics` hands to
`printJson`, from the store `j` at entry and the store `j1` after the tracker
call (the tracker writes none of the fields read from `j`). -/
def statisticsData (env : Env) (j j1 : stats) : JSONData :=
  let data : JSONData := {
    Type_ := Stats
    Hostname := j.hostname
    Timestamp := env.now }
  let totalPackets := totalPackets j
  let packetLoss := packetLoss j
  let data : JSONData :=
    { data with
      TotalPacketLoss := packetLoss
      TotalPackets := totalPackets
      TotalSuccessfulProbes := j.totalSuccessfulProbes
      TotalUnsuccessfulProbes := j.totalUnsuccessfulProbes }
  let data : JSONData :=
    if !j.lastSuccessfulProbe.IsZero then
      { data with LastSuccessfulProbe := some j.lastSuccessfulProbe }
    else data
  let data : JSONData :=
    if !j.lastUnsuccessfulProbe.IsZero then
      { data with LastUnsuccessfulProbe := some j.lastUnsuccessfulProbe }
    else data
  let data : JSONData :=
    { data with
      TotalUptime := Duration.Seconds j.totalUptime
      TotalDowntime := Duration.Seconds j.totalDowntime }
  if !j1.longestUptime.duration.isZero then
    { data with
      LongestUptime := j1.longestUptime.duration
      LongestUptimeStart := some j1.longestUptime.start
      LongestUptimeEnd := some j1.longestUptime.finish }
  else data

/-- The method `statsJsonPrinter.printStatistics`: the store it leaves and its
events. It returns at once when the RTT aggregator has no results. -/
def printStatistics (env : Env) (j : stats) : stats × List Event :=
  let rttResults := env.findMinAvgMaxRttTime j.rtt
  if !rttResults.hasResults then (j, [])
  else
    let j1 := finalUpdate env j
    (j1,
      [finalUpdateCall j]
      ++ printLongestDowntime env j1
      ++ (if !j1.isIP then printRetryResolveStats j1 else [])
      ++ jsonPrintf "rtt min/avg/max: %.3f/%.3f/%.3f"
          [.float rttResults.min, .float rttResults.average, .float rttResults.max]
      ++ printDurationStats env j1
      ++ printJson (statisticsData env j j1))

end statsJsonPrinter

/-! ## A concrete environment and concrete stores -/

/-- The comparison `x < y` of two floats; false as soon as one side is NaN. -/
def GoFloat.lt (x y : GoFloat) : Bool := x.le y && !y.le x

/-- Modelled from the spec: `findMinAvgMaxRttTime` is declared outside
`statsprinter.go`. §4.2: minimum, arithmetic mean and maximum of the samples,
`hasResults = (len(samples) > 0)`; without samples the three numbers are left
at zero. -/
def findMinAvgMaxRttTime (timeArr : List GoFloat) : rttResults :=
  match timeArr with
  | [] => { min := .fin 0, max := .fin 0, average := .fin 0, hasResults := false }
  | x :: xs =>
    { min := xs.foldl (fun m y => if y.lt m then y else m) x
      max := xs.foldl (fun m y => if m.lt y then y else m) x
      average :=
        GoFloat.div round32 ((x :: xs).foldl (GoFloat.add round32) (.fin 0))
          (float32OfUint (x :: xs).length)
      hasResults := true }

/-- Modelled from the spec: the interval the tracker stores after an
observation, §4.1 and §3: the candidate runs from the start of the open period
to the reference timestamp and replaces the stored interval only when its
duration is strictly greater. -/
def longestAfter (stored : longestTime) (start reference : Time) : longestTime :=
  let candidate := Duration.Seconds (Time.Sub reference start)
  if stored.duration.lt candidate then
    { start := start, finish := reference, duration := candidate }
  else stored

/-- Modelled from the spec: `calcTime` is declared outside `statsprinter.go`.
§8 has a duration "formatted as minutes:seconds". -/
def calcTime (seconds : Nat) : String :=
  toString (seconds / 60) ++ ":" ++ padZeros 2 (toString (seconds % 60))

/-- A stand-in for `Time.Format` in the concrete environment: the zero time
reads as the null layout text, any other instant as its count of seconds. -/
def exampleFormat (t : Time) (_layout : String) : String :=
  if t / 1000000000 = 0 then "0001-01-01 00:00:00"
  else "0001-01-01 00:00:00 +" ++ toString (t / 1000000000) ++ "s"

/-- A concrete environment whose clock reads `now`: the layouts of the
program, the aggregator, tracker and `calcTime` as the spec describes them, the
stand-in `exampleFormat`, and 0 for a conversion the language leaves open. -/
def exampleEnv (now : Time) : Env where
  now := now
  Format := exampleFormat
  timeFormat := "2006-01-02 15:04:05"
  nullTimeFormat := "0001-01-01 00:00:00"
  hourFormat := "15:04:05"
  calcTime := calcTime
  findMinAvgMaxRttTime := findMinAvgMaxRttTime
  longestUptimeAfter := fun s t => longestAfter s.longestUptime s.startOfUptime t
  longestDowntimeAfter := fun s t => longestAfter s.longestDowntime s.startOfDowntime t
  uintOfUnrepresentable := fun _ => 0

/-- The store of a session on the hostname target `example.com`, resolved to
`93.184.216.34`, port 443, before any probe. -/
def exampleStore : stats where
  startTime := 1000000000
  endTime := 0
  startOfUptime := 1000000000
  startOfDowntime := 0
  lastSuccessfulProbe := 0
  lastUnsuccessfulProbe := 0
  ip := ⟨"93.184.216.34", by decide⟩
  hostname := "example.com"
  port := 443
  isIP := false
  wasDown := false
  rtt := []
  longestUptime := { start := 0, finish := 0, duration := .fin 0 }
  longestDowntime := { start := 0, finish := 0, duration := .fin 0 }
  totalSuccessfulProbes := 0
  totalUnsuccessfulProbes := 0
  retriedHostnameResolves := 0
  totalUptime := 0
  totalDowntime := 0

/-- The example store after one failed probe, at second 2. -/
def failedOnceStore : stats :=
  { exampleStore with
    totalUnsuccessfulProbes := 1
    lastUnsuccessfulProbe := 2000000000
    startOfDowntime := 2000000000
    wasDown := true }

/-- The example store after five failed probes and no successful one. -/
def allFailedStore : stats :=
  { exampleStore with
    totalUnsuccessfulProbes := 5
    lastUnsuccessfulProbe := 6000000000
    startOfDowntime := 2000000000
    wasDown := true }

/-- The example store after five successful probes and no failed one, the last
at second 6. -/
def allSucceededStore : stats :=
  { exampleStore with
    totalSuccessfulProbes := 5
    lastSuccessfulProbe := 6000000000
    rtt := [.fin 12, .fin 11, .fin 13, .fin 12, .fin 12] }

/-- The example store after seven successful and three failed probes. -/
def sevenOfTenStore : stats :=
  { exampleStore with
    totalSuccessfulProbes := 7
    totalUnsuccessfulProbes := 3
    lastSuccessfulProbe := 11000000000
    lastUnsuccessfulProbe := 5000000000
    rtt := [.fin 12, .fin 11, .fin 13, .fin 12, .fin 12, .fin 14, .fin 12]
    longestDowntime := { start := 3500000000, finish := 6000000000, duration := .fin (5 / 2) } }


/-- The example store holding one RTT sample although no probe is counted. -/
def samplesWithoutCountStore : stats :=
  { exampleStore with rtt := [.fin 12] }

/-- The example store after five failed probes and no successful one, with a
longest uptime of one second recorded before the first failure. -/
def downAfterUpStore : stats :=
  { allFailedStore with
    longestUptime := { start := 1000000000, finish := 2000000000, duration := .fin 1 } }

/-! ## Auxiliary notions for the statements -/

/-- The value an `omitempty` float field is written with, when it is written. -/
def floatValue : GoFloat → Option JSONValue
  | .fin q => if q = 0 then none else some (.number q)
  | _ => none

/-- The objects written through `jsonPrintf` have the single field `message`. -/
def messageOnly (line : Record) : Prop := ∃ m, line = [("message", .str m)]

/-! ## Rounding -/

theorem roundHalfEven_sub_abs_le (x : ℚ) : |(roundHalfEven x : ℚ) - x| ≤ 1 / 2 := by
  have h1 := Int.floor_le x
  have h2 := Int.lt_floor_add_one x
  unfold roundHalfEven
  split_ifs with a b c
  · rw [abs_le]; constructor <;> linarith
  · rw [abs_le]; push_cast; constructor <;> linarith
  · have h3 : x - ⌊x⌋ = 1 / 2 := le_antisymm (not_lt.1 b) (not_lt.1 a)
    rw [abs_le]; constructor <;> linarith
  · have h3 : x - ⌊x⌋ = 1 / 2 := le_antisymm (not_lt.1 b) (not_lt.1 a)
    rw [abs_le]; push_cast; constructor <;> linarith

theorem roundHalfEven_intCast (n : Int) : roundHalfEven (n : ℚ) = n := by
  simp [roundHalfEven]

theorem roundFloat_rel (p : Nat) (emin emax : Int) (q : ℚ)
    (hmin : (2 : ℚ) ^ emin ≤ q) (hmax : q * (1 + 1 / 2 ^ p) < 2 ^ (emax + 1)) :
    ∃ r, roundFloat p emin emax q = .fin r ∧ |r - q| ≤ q / 2 ^ p := by
  have hq : 0 < q := lt_of_lt_of_le (by positivity) hmin
  have he : emin ≤ Int.log 2 q :=
    (Int.zpow_le_iff_le_log (by norm_num) hq).1 (by exact_mod_cast hmin)
  have hlo : (2 : ℚ) ^ Int.log 2 q ≤ q := by
    exact_mod_cast Int.zpow_log_le_self (b := 2) (by norm_num) hq
  have hulp : (0 : ℚ) < 2 ^ (Int.log 2 q - ((p : Int) - 1)) := by positivity
  have hulp2 : (2 : ℚ) ^ (Int.log 2 q - ((p : Int) - 1)) = 2 ^ Int.log 2 q * 2 / 2 ^ p := by
    rw [zpow_sub₀ (by norm_num), zpow_sub₀ (by norm_num), zpow_natCast, zpow_one]
    field_simp
  have hr := roundHalfEven_sub_abs_le (q / 2 ^ (Int.log 2 q - ((p : Int) - 1)))
  have hrq : |(roundHalfEven (q / 2 ^ (Int.log 2 q - ((p : Int) - 1))) : ℚ)
      * 2 ^ (Int.log 2 q - ((p : Int) - 1)) - q| ≤ 2 ^ (Int.log 2 q - ((p : Int) - 1)) / 2 := by
    have h3 : (roundHalfEven (q / 2 ^ (Int.log 2 q - ((p : Int) - 1))) : ℚ)
        * 2 ^ (Int.log 2 q - ((p : Int) - 1)) - q
        = ((roundHalfEven (q / 2 ^ (Int.log 2 q - ((p : Int) - 1))) : ℚ)
            - q / 2 ^ (Int.log 2 q - ((p : Int) - 1))) * 2 ^ (Int.log 2 q - ((p : Int) - 1)) := by
      field_simp
    rw [h3, abs_mul, abs_of_pos hulp]
    nlinarith
  have hb : (2 : ℚ) ^ (Int.log 2 q - ((p : Int) - 1)) / 2 ≤ q / 2 ^ p := by
    rw [hulp2]
    have h4 : (2 : ℚ) ^ Int.log 2 q * 2 / 2 ^ p / 2 = 2 ^ Int.log 2 q / 2 ^ p := by
      field_simp
      ring
    rw [h4]
    exact div_le_div_of_nonneg_right hlo (by positivity)
  have hfin := hrq.trans hb
  refine ⟨_, ?_, hfin⟩
  unfold roundFloat
  rw [if_neg hq.ne', abs_of_pos hq]
  simp only [max_eq_left he]
  rw [if_neg]
  rw [not_le]
  have h5 := (abs_le.1 hfin).2
  have h6 := (abs_le.1 hfin).1
  have h7 : q / 2 ^ p ≤ q := div_le_self hq.le (one_le_pow₀ (by norm_num))
  rw [abs_of_nonneg (by linarith)]
  have h8 : q * (1 + 1 / 2 ^ p) = q + q / 2 ^ p := by ring
  linarith

theorem rel_bounds {r q e : ℚ} (h : |r - q| ≤ q * e) : q * (1 - e) ≤ r ∧ r ≤ q * (1 + e) := by
  have h1 := abs_le.1 h
  have e1 : q * (1 - e) = q - q * e := by ring
  have e2 : q * (1 + e) = q + q * e := by ring
  constructor <;> linarith [h1.1, h1.2]

/-- Four roundings of relative error at most `d` each, as in
`(float32(u) / float32(t)) * 100`, stay within `8 * d` of the exact value. -/
theorem chain_rel (U T a b c v d : ℚ) (hU : 0 < U) (hT : 0 < T) (hd0 : 0 ≤ d)
    (hd : d ≤ 1 / 4) (ha : |a - U| ≤ U * d) (hb : |b - T| ≤ T * d)
    (hc : |c - a / b| ≤ a / b * d) (hv : |v - c * 100| ≤ c * 100 * d) :
    |v - 100 * U / T| ≤ 100 * U / T * (8 * d) := by
  obtain ⟨ha1, ha2⟩ := rel_bounds ha
  obtain ⟨hb1, hb2⟩ := rel_bounds hb
  obtain ⟨hc1, hc2⟩ := rel_bounds hc
  obtain ⟨hv1, hv2⟩ := rel_bounds hv
  have hm : 0 < 1 - d := by linarith
  have hp : 0 < 1 + d := by linarith
  have hapos : 0 < a := lt_of_lt_of_le (by positivity) ha1
  have hbpos : 0 < b := lt_of_lt_of_le (by positivity) hb1
  have hR : 0 < U / T := by positivity
  have hx2 : a / b ≤ U / T * ((1 + d) / (1 - d)) := by
    calc a / b ≤ (U * (1 + d)) / (T * (1 - d)) :=
          div_le_div₀ (by positivity) ha2 (by positivity) hb1
      _ = U / T * ((1 + d) / (1 - d)) := by field_simp
  have hx1 : U / T * ((1 - d) / (1 + d)) ≤ a / b := by
    calc U / T * ((1 - d) / (1 + d)) = (U * (1 - d)) / (T * (1 + d)) := by field_simp
      _ ≤ a / b := div_le_div₀ hapos.le ha1 hbpos hb2
  have hxpos : 0 < a / b := by positivity
  have hcpos : 0 < c := lt_of_lt_of_le (by positivity) hc1
  have hk2 : (1 + d) / (1 - d) * (1 + d) * (1 + d) ≤ 1 + 8 * d := by
    rw [div_mul_eq_mul_div, div_mul_eq_mul_div, div_le_iff₀ hm]
    nlinarith [mul_nonneg hd0 hd0, mul_nonneg (mul_nonneg hd0 hd0) hd0]
  have hk1 : 1 - 8 * d ≤ (1 - d) / (1 + d) * (1 - d) * (1 - d) := by
    rw [div_mul_eq_mul_div, div_mul_eq_mul_div, le_div_iff₀ hp]
    nlinarith [mul_nonneg hd0 hd0, mul_nonneg (mul_nonneg hd0 hd0) hd0]
  have hup : v ≤ 100 * U / T * (1 + 8 * d) := by
    calc v ≤ c * 100 * (1 + d) := hv2
      _ ≤ (a / b * (1 + d)) * 100 * (1 + d) := by gcongr
      _ ≤ (U / T * ((1 + d) / (1 - d)) * (1 + d)) * 100 * (1 + d) := by gcongr
      _ = 100 * U / T * ((1 + d) / (1 - d) * (1 + d) * (1 + d)) := by ring
      _ ≤ 100 * U / T * (1 + 8 * d) := by gcongr
  have hlo : 100 * U / T * (1 - 8 * d) ≤ v := by
    calc 100 * U / T * (1 - 8 * d) ≤ 100 * U / T * ((1 - d) / (1 + d) * (1 - d) * (1 - d)) := by
          gcongr
      _ = (U / T * ((1 - d) / (1 + d)) * (1 - d)) * 100 * (1 - d) := by ring
      _ ≤ (a / b * (1 - d)) * 100 * (1 - d) := by gcongr
      _ ≤ c * 100 * (1 - d) := by gcongr
      _ ≤ v := hv1
  have e1 : 100 * U / T * (1 + 8 * d) = 100 * U / T + 100 * U / T * (8 * d) := by ring
  have e2 : 100 * U / T * (1 - 8 * d) = 100 * U / T - 100 * U / T * (8 * d) := by ring
  rw [abs_le]
  constructor <;> linarith

theorem round32_rel (q : ℚ) (h1 : 1 / 2 ^ 126 ≤ q) (h2 : q ≤ 2 ^ 127) :
    ∃ r, round32 q = .fin r ∧ |r - q| ≤ q * (1 / 2 ^ 24) := by
  have hq : 0 < q := lt_of_lt_of_le (by positivity) h1
  have hmin : (2 : ℚ) ^ (-126 : Int) ≤ q := by
    have e : (2 : ℚ) ^ (-126 : Int) = 1 / 2 ^ 126 := by
      rw [show (-126 : Int) = -((126 : ℕ) : Int) by rfl, zpow_neg, zpow_natCast, one_div]
    rw [e]; exact h1
  have hmax : q * (1 + 1 / 2 ^ 24) < 2 ^ ((127 : Int) + 1) := by
    have e : (2 : ℚ) ^ ((127 : Int) + 1) = 2 ^ 127 * 2 := by
      rw [show ((127 : Int) + 1) = ((127 + 1 : ℕ) : Int) by rfl, zpow_natCast, pow_succ]
    rw [e]
    have h3 : q * (1 + 1 / 2 ^ 24) ≤ 2 ^ 127 * (1 + 1 / 2 ^ 24) :=
      mul_le_mul_of_nonneg_right h2 (by positivity)
    have h4 : (2 : ℚ) ^ 127 * (1 + 1 / 2 ^ 24) < 2 ^ 127 * 2 :=
      mul_lt_mul_of_pos_left (by norm_num) (by positivity)
    exact lt_of_le_of_lt h3 h4
  obtain ⟨r, hr, hb⟩ := roundFloat_rel 24 (-126) 127 q hmin hmax
  exact ⟨r, hr, by rw [mul_one_div]; exact hb⟩

theorem round32_zero : round32 0 = .fin 0 := by
  simp [round32, roundFloat]

theorem float32OfUint_zero : float32OfUint 0 = .fin 0 := by
  simp [float32OfUint, round32_zero]

theorem float32OfUint_rel (n : Nat) (h0 : 0 < n) (h : n < 2 ^ 64) :
    ∃ r, float32OfUint n = .fin r ∧ |r - n| ≤ n * (1 / 2 ^ 24) := by
  have h1 : (1 : ℚ) ≤ n := by exact_mod_cast h0
  have h2 : (n : ℚ) < 2 ^ 64 := by exact_mod_cast h
  apply round32_rel
  · exact le_trans (by norm_num) h1
  · exact le_trans h2.le (by norm_num)

theorem totalPackets_lt (p : stats) : totalPackets p < 2 ^ 64 :=
  Nat.mod_lt _ (by unfold uintModulus; positivity)

/-- With a non-zero total and no failed probe the computed loss is exactly
zero. -/
theorem packetLoss_eq_zero (p : stats) (hu : p.totalUnsuccessfulProbes = 0)
    (ht : 0 < totalPackets p) : packetLoss p = .fin 0 := by
  obtain ⟨b, hb, hbb⟩ := float32OfUint_rel (totalPackets p) ht (totalPackets_lt p)
  have hbpos : 0 < b := by
    have h1 : (1 : ℚ) ≤ (totalPackets p : ℚ) := by exact_mod_cast ht
    have := (rel_bounds hbb).1
    linarith
  simp [packetLoss, hu, float32OfUint_zero, hb, GoFloat.div, GoFloat.mul, hbpos.ne', round32_zero]

/-- With a non-zero total and at least one failed probe the computed loss is a
finite number within `2 ^ (-21)`, relatively, of `100 * unsuccessful / total`. -/
theorem packetLoss_rel (p : stats) (hu0 : 0 < p.totalUnsuccessfulProbes)
    (hu : p.totalUnsuccessfulProbes < 2 ^ 64) (ht : 0 < totalPackets p) :
    ∃ q, packetLoss p = .fin q ∧ 0 < q ∧
      |q - 100 * (p.totalUnsuccessfulProbes : ℚ) / (totalPackets p : ℚ)|
        ≤ 100 * (p.totalUnsuccessfulProbes : ℚ) / (totalPackets p : ℚ) * (1 / 2 ^ 21) := by
  obtain ⟨a, ha, haa⟩ := float32OfUint_rel _ hu0 hu
  obtain ⟨b, hb, hbb⟩ := float32OfUint_rel (totalPackets p) ht (totalPackets_lt p)
  have hU1 : (1 : ℚ) ≤ (p.totalUnsuccessfulProbes : ℚ) := by exact_mod_cast hu0
  have hU2 : (p.totalUnsuccessfulProbes : ℚ) < 2 ^ 64 := by exact_mod_cast hu
  have hT1 : (1 : ℚ) ≤ (totalPackets p : ℚ) := by exact_mod_cast ht
  have hT2 : (totalPackets p : ℚ) < 2 ^ 64 := by exact_mod_cast totalPackets_lt p
  obtain ⟨ha1, ha2⟩ := rel_bounds haa
  obtain ⟨hb1, hb2⟩ := rel_bounds hbb
  have hapos : 1 / 2 ≤ a := by linarith
  have hbpos : 1 / 2 ≤ b := by linarith
  have haup : a ≤ 2 ^ 65 := by linarith
  have hbup : b ≤ 2 ^ 65 := by linarith
  have hx1 : 1 / 2 ^ 66 ≤ a / b := by
    rw [le_div_iff₀ (by linarith)]
    linarith
  have hx2 : a / b ≤ 2 ^ 66 := by
    rw [div_le_iff₀ (by linarith)]
    linarith
  obtain ⟨c, hc, hcc⟩ := round32_rel (a / b) (le_trans (by norm_num) hx1)
    (le_trans hx2 (by norm_num))
  obtain ⟨hc1, hc2⟩ := rel_bounds hcc
  have hcpos : 1 / 2 ^ 67 ≤ c := by linarith
  have hcup : c ≤ 2 ^ 67 := by linarith
  obtain ⟨v, hv, hvv⟩ := round32_rel (c * 100) (by linarith) (by linarith)
  obtain ⟨hv1, hv2⟩ := rel_bounds hvv
  refine ⟨v, ?_, by linarith, ?_⟩
  · have hb0 : b ≠ 0 := by linarith
    simp [packetLoss, ha, hb, GoFloat.div, GoFloat.mul, hb0, hc, hv]
  · have h := chain_rel (p.totalUnsuccessfulProbes : ℚ) (totalPackets p : ℚ) a b c v
      (1 / 2 ^ 24) (by linarith) (by linarith) (by norm_num) (by norm_num) haa hbb hcc hvv
    have e : (8 : ℚ) * (1 / 2 ^ 24) = 1 / 2 ^ 21 := by norm_num
    rw [e] at h
    exact h

theorem int_log_two_eq (q : ℚ) (e : Int) (h1 : (2 : ℚ) ^ e ≤ q) (h2 : q < (2 : ℚ) ^ (e + 1)) :
    Int.log 2 q = e := by
  have hq : 0 < q := lt_of_lt_of_le (by positivity) h1
  apply le_antisymm
  · have h3 := (Int.lt_zpow_iff_log_lt (b := 2) (by norm_num) hq (x := e + 1)).1
      (by exact_mod_cast h2)
    omega
  · exact (Int.zpow_le_iff_le_log (b := 2) (by norm_num) hq).1 (by exact_mod_cast h1)

theorem round64_zero : round64 0 = .fin 0 := by
  simp [round64, roundFloat]

/-- An integer of magnitude below `2 ^ 53` is a float64. -/
theorem round64_intCast (n : Int) (h : |n| < 2 ^ 53) : round64 (n : ℚ) = .fin n := by
  by_cases h0 : n = 0
  · subst h0; simpa using round64_zero
  have hq0 : (n : ℚ) ≠ 0 := by exact_mod_cast h0
  have habs : (0 : ℚ) < |(n : ℚ)| := abs_pos.2 hq0
  have h1 : (1 : ℚ) ≤ |(n : ℚ)| := by
    have : (1 : Int) ≤ |n| := Int.one_le_abs h0
    exact_mod_cast this
  have h53 : |(n : ℚ)| < 2 ^ 53 := by exact_mod_cast h
  have he0 : 0 ≤ Int.log 2 |(n : ℚ)| :=
    (Int.zpow_le_iff_le_log (b := 2) (by norm_num) habs).1 (by simpa using h1)
  have he1 : Int.log 2 |(n : ℚ)| < 53 :=
    (Int.lt_zpow_iff_log_lt (b := 2) (by norm_num) habs).1 (by
      have : ((2 : ℕ) : ℚ) ^ ((53 : ℕ) : Int) = 2 ^ 53 := by norm_num
      rw [show (53 : Int) = ((53 : ℕ) : Int) by rfl, this]
      exact h53)
  obtain ⟨k, hk⟩ : ∃ k : ℕ, Int.log 2 |(n : ℚ)| - ((53 : ℕ) - 1 : Int) = -(k : Int) :=
    ⟨(52 - Int.log 2 |(n : ℚ)|).toNat, by
      rw [Int.toNat_of_nonneg (by omega)]; push_cast; ring⟩
  have hulp : (2 : ℚ) ^ (Int.log 2 |(n : ℚ)| - ((53 : ℕ) - 1 : Int)) = 1 / 2 ^ k := by
    rw [hk, zpow_neg, zpow_natCast, one_div]
  have hdiv : (n : ℚ) / (1 / 2 ^ k) = ((n * 2 ^ k : Int) : ℚ) := by
    push_cast; field_simp
  unfold round64 roundFloat
  rw [if_neg hq0]
  simp only [max_eq_left (show (-1022 : Int) ≤ Int.log 2 |(n : ℚ)| by omega)]
  rw [hulp, hdiv, roundHalfEven_intCast]
  have hr : ((n * 2 ^ k : Int) : ℚ) * (1 / 2 ^ k) = n := by
    push_cast; field_simp
  rw [hr, if_neg]
  rw [not_le]
  calc |(n : ℚ)| < 2 ^ 53 := h53
    _ ≤ 2 ^ ((1023 : Int) + 1) := by
      rw [show ((1023 : Int) + 1) = ((1024 : ℕ) : Int) by rfl, zpow_natCast]
      exact pow_le_pow_right₀ (by norm_num) (by norm_num)

/-- A whole number of seconds converts exactly. -/
theorem seconds_whole (k : Int) (h : |k| < 2 ^ 53) :
    Duration.Seconds (k * 1000000000) = .fin k := by
  have h1 : (k * 1000000000).tdiv 1000000000 = k := Int.mul_tdiv_cancel _ (by norm_num)
  have h2 : (k * 1000000000).tmod 1000000000 = 0 := Int.mul_tmod_left _ _
  have h3 := round64_intCast k h
  simp [Duration.Seconds, h1, h2, float64OfInt, round64_zero, GoFloat.div, GoFloat.add, h3]

/-! ## Encoded objects -/

theorem Record.get_nil (k : String) : Record.get [] k = none := rfl

theorem Record.get_cons (key : String) (v : JSONValue) (r : Record) (k : String) :
    Record.get ((key, v) :: r) k = if key = k then some v else Record.get r k := rfl

theorem Record.get_append (a b : Record) (k : String) :
    Record.get (a ++ b) k = (Record.get a k).orElse fun _ => Record.get b k := by
  induction a with
  | nil => simp [Record.get]
  | cons x a ih =>
    obtain ⟨key, v⟩ := x
    by_cases h : key = k <;> simp [Record.get, h, ih]

theorem get_omitEmptyString (key s k : String) :
    Record.get (omitEmptyString key s) k = if key = k ∧ s ≠ "" then some (.str s) else none := by
  unfold omitEmptyString
  by_cases h : s = "" <;> by_cases h2 : key = k <;> simp [Record.get, h, h2]

theorem get_omitEmptyUint (key : String) (n : Nat) (k : String) :
    Record.get (omitEmptyUint key n) k = if key = k ∧ n ≠ 0 then some (.uint n) else none := by
  unfold omitEmptyUint
  by_cases h : n = 0 <;> by_cases h2 : key = k <;> simp [Record.get, h, h2]

theorem get_omitEmptyBoolPtr (key : String) (b : Option Bool) (k : String) :
    Record.get (omitEmptyBoolPtr key b) k = if key = k then b.map .bool else none := by
  cases b <;> by_cases h2 : key = k <;> simp [omitEmptyBoolPtr, Record.get, h2]

theorem get_omitEmptyTimePtr (key : String) (t : Option Time) (k : String) :
    Record.get (omitEmptyTimePtr key t) k = if key = k then t.map .time else none := by
  cases t <;> by_cases h2 : key = k <;> simp [omitEmptyTimePtr, Record.get, h2]

theorem get_omitEmptyFloat (key : String) (x : GoFloat) (seg : Record) (k : String)
    (h : omitEmptyFloat key x = some seg) :
    Record.get seg k = if key = k then floatValue x else none := by
  cases x with
  | fin q =>
    simp only [omitEmptyFloat, Option.some.injEq] at h
    subst h
    by_cases h1 : q = 0 <;> by_cases h2 : key = k <;> simp [Record.get, floatValue, h1, h2]
  | inf neg => simp [omitEmptyFloat] at h
  | nan => simp [omitEmptyFloat] at h

/-- The fields of an encoded `JSONData`. -/
theorem encode_get (d : JSONData) (line : Record) (h : d.encode = some line) (k : String) :
    Record.get line k =
      if k = "type" then some (.str d.Type_)
      else if k = "message" then some (.str d.Message)
      else if k = "timestamp" then some (.time d.Timestamp)
      else if k = "success" then d.Success.map .bool
      else if k = "latency" then floatValue d.Latency
      else if k = "addr" then (if d.Addr = "" then none else some (.str d.Addr))
      else if k = "hostname" then (if d.Hostname = "" then none else some (.str d.Hostname))
      else if k = "is_ip" then d.IsIP.map .bool
      else if k = "last_successful_probe" then d.LastSuccessfulProbe.map .time
      else if k = "last_unsuccessful_probe" then d.LastUnsuccessfulProbe.map .time
      else if k = "longest_uptime" then floatValue d.LongestUptime
      else if k = "longest_uptime_end" then d.LongestUptimeEnd.map .time
      else if k = "longest_uptime_start" then d.LongestUptimeStart.map .time
      else if k = "port" then (if d.Port = 0 then none else some (.uint d.Port))
      else if k = "total_packet_loss" then floatValue d.TotalPacketLoss
      else if k = "total_packets" then
        (if d.TotalPackets = 0 then none else some (.uint d.TotalPackets))
      else if k = "total_successful_probes" then
        (if d.TotalSuccessfulProbes = 0 then none else some (.uint d.TotalSuccessfulProbes))
      else if k = "total_unsuccessful_probes" then
        (if d.TotalUnsuccessfulProbes = 0 then none else some (.uint d.TotalUnsuccessfulProbes))
      else if k = "total_uptime" then floatValue d.TotalUptime
      else if k = "total_downtime" then floatValue d.TotalDowntime
      else none := by
  unfold JSONData.encode at h
  split at h
  · rename_i s1 s2 s3 s4 s5 h1 h2 h3 h4 h5
    simp only [Option.some.injEq] at h
    subst h
    simp only [Record.get_append, Record.get_cons, Record.get_nil, get_omitEmptyString,
      get_omitEmptyUint, get_omitEmptyBoolPtr, get_omitEmptyTimePtr,
      get_omitEmptyFloat _ _ _ k h1, get_omitEmptyFloat _ _ _ k h2,
      get_omitEmptyFloat _ _ _ k h3, get_omitEmptyFloat _ _ _ k h4,
      get_omitEmptyFloat _ _ _ k h5, List.cons_append, List.nil_append]
    by_cases c0 : k = "type"
    · subst c0; simp
    by_cases c1 : k = "message"
    · subst c1; simp
    by_cases c2 : k = "timestamp"
    · subst c2; simp
    by_cases c3 : k = "success"
    · subst c3; simp
    by_cases c4 : k = "latency"
    · subst c4; simp
    by_cases c5 : k = "addr"
    · subst c5; simp
    by_cases c6 : k = "hostname"
    · subst c6; simp
    by_cases c7 : k = "is_ip"
    · subst c7; simp
    by_cases c8 : k = "last_successful_probe"
    · subst c8; simp
    by_cases c9 : k = "last_unsuccessful_probe"
    · subst c9; simp
    by_cases c10 : k = "longest_uptime"
    · subst c10; simp
    by_cases c11 : k = "longest_uptime_end"
    · subst c11; simp
    by_cases c12 : k = "longest_uptime_start"
    · subst c12; simp
    by_cases c13 : k = "port"
    · subst c13; simp
    by_cases c14 : k = "total_packet_loss"
    · subst c14; simp
    by_cases c15 : k = "total_packets"
    · subst c15; simp
    by_cases c16 : k = "total_successful_probes"
    · subst c16; simp
    by_cases c17 : k = "total_unsuccessful_probes"
    · subst c17; simp
    by_cases c18 : k = "total_uptime"
    · subst c18; simp
    by_cases c19 : k = "total_downtime"
    · subst c19; simp
    simp [c0, c1, c2, c3, c4, c5, c6, c7, c8, c9, c10, c11, c12, c13, c14, c15, c16, c17, c18, c19, Ne.symm c0, Ne.symm c1, Ne.symm c2, Ne.symm c3, Ne.symm c4, Ne.symm c5, Ne.symm c6, Ne.symm c7, Ne.symm c8, Ne.symm c9, Ne.symm c10, Ne.symm c11, Ne.symm c12, Ne.symm c13, Ne.symm c14, Ne.symm c15, Ne.symm c16, Ne.symm c17, Ne.symm c18, Ne.symm c19]
  · simp at h

theorem jsonLines_append (a b : List Event) : jsonLines (a ++ b) = jsonLines a ++ jsonLines b := by
  induction a with
  | nil => rfl
  | cons e a ih => cases e <;> simp [jsonLines, ih]

theorem jsonLines_printJson (d : JSONData) : jsonLines (printJson d) = d.encode.toList := by
  unfold printJson
  cases d.encode <;> rfl

theorem jsonLines_jsonPrintf (format : String) (args : List Arg) :
    jsonLines (jsonPrintf format args) = [[("message", .str (Sprintf format args))]] := rfl

theorem encode_type (d : JSONData) (line : Record) (h : d.encode = some line) :
    Record.get line "type" = some (.str d.Type_) := by
  rw [encode_get d line h]; simp

theorem encode_message (d : JSONData) (line : Record) (h : d.encode = some line) :
    Record.get line "message" = some (.str d.Message) := by
  rw [encode_get d line h]; simp

theorem encode_timestamp (d : JSONData) (line : Record) (h : d.encode = some line) :
    Record.get line "timestamp" = some (.time d.Timestamp) := by
  rw [encode_get d line h]; simp

theorem encode_success (d : JSONData) (line : Record) (h : d.encode = some line) :
    Record.get line "success" = d.Success.map .bool := by
  rw [encode_get d line h]; simp

theorem encode_latency (d : JSONData) (line : Record) (h : d.encode = some line) :
    Record.get line "latency" = floatValue d.Latency := by
  rw [encode_get d line h]; simp

theorem encode_last_successful_probe (d : JSONData) (line : Record) (h : d.encode = some line) :
    Record.get line "last_successful_probe" = d.LastSuccessfulProbe.map .time := by
  rw [encode_get d line h]; simp

theorem encode_last_unsuccessful_probe (d : JSONData) (line : Record)
    (h : d.encode = some line) :
    Record.get line "last_unsuccessful_probe" = d.LastUnsuccessfulProbe.map .time := by
  rw [encode_get d line h]; simp

theorem encode_longest_uptime (d : JSONData) (line : Record) (h : d.encode = some line) :
    Record.get line "longest_uptime" = floatValue d.LongestUptime := by
  rw [encode_get d line h]; simp

theorem encode_longest_uptime_end (d : JSONData) (line : Record) (h : d.encode = some line) :
    Record.get line "longest_uptime_end" = d.LongestUptimeEnd.map .time := by
  rw [encode_get d line h]; simp

theorem encode_longest_uptime_start (d : JSONData) (line : Record) (h : d.encode = some line) :
    Record.get line "longest_uptime_start" = d.LongestUptimeStart.map .time := by
  rw [encode_get d line h]; simp

theorem encode_total_packet_loss (d : JSONData) (line : Record) (h : d.encode = some line) :
    Record.get line "total_packet_loss" = floatValue d.TotalPacketLoss := by
  rw [encode_get d line h]; simp

theorem encode_total_packets (d : JSONData) (line : Record) (h : d.encode = some line) :
    Record.get line "total_packets"
      = if d.TotalPackets = 0 then none else some (.uint d.TotalPackets) := by
  rw [encode_get d line h]; simp

theorem encode_total_successful_probes (d : JSONData) (line : Record)
    (h : d.encode = some line) :
    Record.get line "total_successful_probes"
      = if d.TotalSuccessfulProbes = 0 then none else some (.uint d.TotalSuccessfulProbes) := by
  rw [encode_get d line h]; simp

theorem encode_total_unsuccessful_probes (d : JSONData) (line : Record)
    (h : d.encode = some line) :
    Record.get line "total_unsuccessful_probes"
      = if d.TotalUnsuccessfulProbes = 0 then none
        else some (.uint d.TotalUnsuccessfulProbes) := by
  rw [encode_get d line h]; simp

/-- What the encoder needs to succeed: finite float fields. -/
theorem encode_isSome_iff (d : JSONData) :
    d.encode.isSome = true ↔
      (∃ q, d.Latency = .fin q) ∧ (∃ q, d.LongestUptime = .fin q)
      ∧ (∃ q, d.TotalPacketLoss = .fin q) ∧ (∃ q, d.TotalUptime = .fin q)
      ∧ (∃ q, d.TotalDowntime = .fin q) := by
  unfold JSONData.encode
  cases h1 : d.Latency <;> cases h2 : d.LongestUptime <;> cases h3 : d.TotalPacketLoss <;>
    cases h4 : d.TotalUptime <;> cases h5 : d.TotalDowntime <;> simp [omitEmptyFloat]

theorem mem_jsonLines_printJson (d : JSONData) (line : Record)
    (h : line ∈ jsonLines (printJson d)) : d.encode = some line := by
  rw [jsonLines_printJson] at h
  cases h2 : d.encode with
  | none => simp [h2] at h
  | some l => simp [h2] at h; rw [h]

theorem floatValue_isSome (x : GoFloat) :
    (floatValue x).isSome = true ↔ (∃ q, x = .fin q) ∧ x.isZero = false := by
  cases x with
  | fin q => by_cases h : q = 0 <;> simp [floatValue, GoFloat.isZero, h]
  | inf neg => simp [floatValue, GoFloat.isZero]
  | nan => simp [floatValue, GoFloat.isZero]

theorem floatValue_eq_some (x : GoFloat) (v : JSONValue) (h : floatValue x = some v) :
    ∃ q, x = .fin q ∧ q ≠ 0 ∧ v = .number q := by
  cases x with
  | fin q =>
    by_cases h0 : q = 0
    · simp [floatValue, h0] at h
    · simp only [floatValue, h0, if_false, Option.some.injEq] at h
      exact ⟨q, rfl, h0, h.symm⟩
  | inf neg => simp [floatValue] at h
  | nan => simp [floatValue] at h

/-! ## The probe object -/

theorem replyData_Type (env : Env) (j : stats) (reply : replyMsg) :
    (statsJsonPrinter.replyData env j reply).Type_ = "probe" := by
  by_cases hmsg : reply.msg = noReply <;> by_cases hip : j.isIP <;>
    simp [statsJsonPrinter.replyData, hmsg, hip, Probe]

theorem replyData_Success (env : Env) (j : stats) (reply : replyMsg) :
    (statsJsonPrinter.replyData env j reply).Success = some (decide (reply.msg ≠ noReply)) := by
  by_cases hmsg : reply.msg = noReply <;> by_cases hip : j.isIP <;>
    simp [statsJsonPrinter.replyData, hmsg, hip]

theorem replyData_Latency (env : Env) (j : stats) (reply : replyMsg) :
    (statsJsonPrinter.replyData env j reply).Latency
      = if reply.msg = noReply then .fin 0 else reply.rtt := by
  by_cases hmsg : reply.msg = noReply <;> by_cases hip : j.isIP <;>
    simp [statsJsonPrinter.replyData, hmsg, hip]

theorem replyData_others (env : Env) (j : stats) (reply : replyMsg) :
    (statsJsonPrinter.replyData env j reply).LongestUptime = .fin 0
    ∧ (statsJsonPrinter.replyData env j reply).TotalPacketLoss = .fin 0
    ∧ (statsJsonPrinter.replyData env j reply).TotalUptime = .fin 0
    ∧ (statsJsonPrinter.replyData env j reply).TotalDowntime = .fin 0 := by
  by_cases hmsg : reply.msg = noReply <;> by_cases hip : j.isIP <;>
    simp [statsJsonPrinter.replyData, hmsg, hip]

/-! ## The end-of-session report -/

theorem packetLoss_mem_printStatistics (env : Env) (p : stats) :
    Event.print (statsPlanePrinter.packetLossColor (packetLoss p)) "%.2f%%"
        [.float (packetLoss p)] ∈ (statsPlanePrinter.printStatistics env p).2 := by
  simp [statsPlanePrinter.printStatistics]

theorem totalPackets_mem_printStatistics (env : Env) (p : stats) :
    Event.print .yellow "%d probes transmitted on port %d | "
        [.uint (totalPackets p), .uint p.port] ∈ (statsPlanePrinter.printStatistics env p).2 := by
  simp [statsPlanePrinter.printStatistics]

theorem messageOnly_has_type (line : Record) (h : messageOnly line) :
    line.has "type" = false := by
  obtain ⟨m, rfl⟩ := h
  simp [Record.has, Record.get]

theorem messageOnly_printLongestDowntime (env : Env) (j : stats) :
    ∀ line ∈ jsonLines (statsJsonPrinter.printLongestDowntime env j), messageOnly line := by
  intro line h
  unfold statsJsonPrinter.printLongestDowntime at h
  by_cases hz : j.longestDowntime.duration.isZero
  · simp [hz, jsonLines] at h
  · simp [hz, jsonLines_jsonPrintf] at h
    exact ⟨_, h⟩

/-- The object of type `stats` is the encoding of `statisticsData`, and it is
written only when the RTT aggregator has results. -/
theorem stats_object_of_mem (env : Env) (j : stats) (line : Record)
    (h : line ∈ jsonLines (statsJsonPrinter.printStatistics env j).2)
    (ht : line.has "type" = true) :
    (env.findMinAvgMaxRttTime j.rtt).hasResults = true
    ∧ (statsJsonPrinter.statisticsData env j (finalUpdate env j)).encode = some line := by
  unfold statsJsonPrinter.printStatistics at h
  by_cases hr : (env.findMinAvgMaxRttTime j.rtt).hasResults
  · refine ⟨hr, ?_⟩
    simp only [hr, Bool.not_true, Bool.false_eq_true, if_false, jsonLines_append,
      List.mem_append] at h
    rcases h with (((((h | h) | h) | h) | h) | h)
    · cases hw : j.wasDown <;> simp [finalUpdateCall, hw, jsonLines] at h
    · have := messageOnly_has_type _ (messageOnly_printLongestDowntime _ _ _ h)
      rw [this] at ht; cases ht
    · by_cases hip : (finalUpdate env j).isIP
      · simp [hip, jsonLines] at h
      · simp [hip, statsJsonPrinter.printRetryResolveStats, jsonLines_jsonPrintf] at h
        have := messageOnly_has_type line ⟨_, h⟩
        rw [this] at ht; cases ht
    · simp [jsonLines_jsonPrintf] at h
      have := messageOnly_has_type line ⟨_, h⟩
      rw [this] at ht; cases ht
    · simp [statsJsonPrinter.printDurationStats, jsonLines_jsonPrintf] at h
      have := messageOnly_has_type line ⟨_, h⟩
      rw [this] at ht; cases ht
    · exact mem_jsonLines_printJson _ _ h
  · simp [hr, jsonLines] at h

theorem stats_object_mem (env : Env) (j : stats) (line : Record)
    (hr : (env.findMinAvgMaxRttTime j.rtt).hasResults = true)
    (h : (statsJsonPrinter.statisticsData env j (finalUpdate env j)).encode = some line) :
    line ∈ jsonLines (statsJsonPrinter.printStatistics env j).2 := by
  unfold statsJsonPrinter.printStatistics
  simp only [hr, Bool.not_true, Bool.false_eq_true, if_false, jsonLines_append,
    List.mem_append, jsonLines_printJson, h]
  right
  simp

theorem trackerCalls_append (a b : List Event) :
    trackerCalls (a ++ b) = trackerCalls a ++ trackerCalls b := by
  simp [trackerCalls]

theorem finalUpdate_frame (env : Env) (p : stats) :
    (finalUpdate env p).isIP = p.isIP ∧ (finalUpdate env p).rtt = p.rtt
    ∧ (finalUpdate env p).hostname = p.hostname
    ∧ (finalUpdate env p).lastSuccessfulProbe = p.lastSuccessfulProbe
    ∧ (finalUpdate env p).lastUnsuccessfulProbe = p.lastUnsuccessfulProbe := by
  cases h : p.wasDown <;> simp [finalUpdate, h, calcLongestUptime, calcLongestDowntime]

/-! ## The statistics object and its numbers -/

theorem packetLoss_zero_probes (p : stats) (hs : p.totalSuccessfulProbes = 0)
    (hu : p.totalUnsuccessfulProbes = 0) : packetLoss p = .nan := by
  simp [packetLoss, totalPackets, hs, hu, float32OfUint_zero, GoFloat.div, GoFloat.mul]

theorem packetLoss_finite (p : stats) (hu : p.totalUnsuccessfulProbes < 2 ^ 64)
    (ht : 0 < totalPackets p) : ∃ q, packetLoss p = .fin q := by
  rcases Nat.eq_zero_or_pos p.totalUnsuccessfulProbes with h0 | h0
  · exact ⟨0, packetLoss_eq_zero p h0 ht⟩
  · obtain ⟨q, hq, _⟩ := packetLoss_rel p h0 hu ht
    exact ⟨q, hq⟩

theorem statisticsData_TotalPacketLoss (env : Env) (j j1 : stats) :
    (statsJsonPrinter.statisticsData env j j1).TotalPacketLoss = packetLoss j
    ∧ (statsJsonPrinter.statisticsData env j j1).TotalPackets = totalPackets j
    ∧ (statsJsonPrinter.statisticsData env j j1).TotalSuccessfulProbes = j.totalSuccessfulProbes
    ∧ (statsJsonPrinter.statisticsData env j j1).TotalUnsuccessfulProbes
        = j.totalUnsuccessfulProbes
    ∧ (statsJsonPrinter.statisticsData env j j1).Type_ = "stats" := by
  unfold statsJsonPrinter.statisticsData
  by_cases h1 : j.lastSuccessfulProbe.IsZero <;> by_cases h2 : j.lastUnsuccessfulProbe.IsZero <;>
    by_cases h3 : j1.longestUptime.duration.isZero <;> simp [h1, h2, h3, Stats]

theorem round32_3 : round32 3 = .fin 3 := by
  have h : Int.log 2 |(3 : ℚ)| = 1 := int_log_two_eq _ _ (by norm_num) (by norm_num)
  simp only [round32, roundFloat, h]
  norm_num [roundHalfEven]

theorem round32_10 : round32 10 = .fin 10 := by
  have h : Int.log 2 |(10 : ℚ)| = 3 := int_log_two_eq _ _ (by norm_num) (by norm_num)
  simp only [round32, roundFloat, h]
  norm_num [roundHalfEven]

theorem round32_3_div_10 : round32 (3 / 10) = .fin (5033165 / 16777216) := by
  have h : Int.log 2 |(3 / 10 : ℚ)| = -2 :=
    int_log_two_eq _ _ (by norm_num [abs_div]) (by norm_num [abs_div])
  simp only [round32, roundFloat, h]
  norm_num [roundHalfEven, abs_div]

theorem round32_30 :
    round32 (5033165 / 16777216 * 100) = .fin (15728641 / 524288) := by
  have h : Int.log 2 |(5033165 / 16777216 * 100 : ℚ)| = 4 :=
    int_log_two_eq _ _ (by norm_num [abs_div]) (by norm_num [abs_div])
  simp only [round32, roundFloat, h]
  norm_num [roundHalfEven, abs_div]

/-- Seven successful and three failed probes: the float32 figure is
`15728641 / 2 ^ 19`, just above 30. -/
theorem packetLoss_7_3 (p : stats) (hs : p.totalSuccessfulProbes = 7)
    (hu : p.totalUnsuccessfulProbes = 3) : packetLoss p = .fin (15728641 / 524288) := by
  have ht : totalPackets p = 10 := by simp [totalPackets, hs, hu, uintModulus]
  simp [packetLoss, ht, hu, float32OfUint, round32_3, round32_10, GoFloat.div, GoFloat.mul,
    round32_3_div_10, round32_30]

theorem fmtFixed_30 : Sprintf "%.2f%%" [.float (.fin (15728641 / 524288))] = "30.00%" := by
  have h : fmtFixed 2 (.fin (15728641 / 524288)) = "30.00" := by
    norm_num [fmtFixed, roundHalfEven, abs_div, Int.fract]
    decide
  have h2 : Sprintf "%.2f%%" [.float (.fin (15728641 / 524288))]
      = fmtFixed 2 (.fin (15728641 / 524288)) ++ "%" := by
    simp [Sprintf, sprintfAux]
    rfl
  rw [h2, h]
  decide

theorem sprintf_loss (x : GoFloat) : Sprintf "%.2f%%" [.float x] = fmtFixed 2 x ++ "%" := by
  simp [Sprintf, sprintfAux]
  rfl

theorem toUint_ceil (env : Env) (q : ℚ) (h0 : 0 ≤ q) (h1 : q ≤ 2 ^ 64 - 1) :
    toUint env (GoFloat.ceil (.fin q)) = ⌈q⌉.toNat := by
  have hc0 : (0 : Int) ≤ ⌈q⌉ := Int.ceil_nonneg h0
  have hc1 : ⌈q⌉ ≤ 2 ^ 64 - 1 := by
    apply Int.ceil_le.2
    push_cast
    norm_num at h1 ⊢
    exact h1
  have h2 : (0 : ℚ) ≤ (⌈q⌉ : ℚ) := by exact_mod_cast hc0
  have h3 : ((⌈q⌉ : Int) : ℚ) < 2 ^ 64 := by
    have : (⌈q⌉ : Int) < 2 ^ 64 := by omega
    exact_mod_cast this
  simp [toUint, uintOfFloat, GoFloat.ceil, h2, h3]

theorem finalUpdate_longestDowntime (env : Env) (p : stats) (h : p.wasDown = false) :
    (finalUpdate env p).longestDowntime = p.longestDowntime := by
  simp [finalUpdate, h, calcLongestUptime]

theorem statisticsData_longest (env : Env) (j j1 : stats) :
    (statsJsonPrinter.statisticsData env j j1).LongestUptime
        = (if j1.longestUptime.duration.isZero then .fin 0 else j1.longestUptime.duration)
    ∧ (statsJsonPrinter.statisticsData env j j1).LongestUptimeStart
        = (if j1.longestUptime.duration.isZero then none else some j1.longestUptime.start)
    ∧ (statsJsonPrinter.statisticsData env j j1).LongestUptimeEnd
        = (if j1.longestUptime.duration.isZero then none else some j1.longestUptime.finish) := by
  unfold statsJsonPrinter.statisticsData
  by_cases h1 : j.lastSuccessfulProbe.IsZero <;> by_cases h2 : j.lastUnsuccessfulProbe.IsZero <;>
    by_cases h3 : j1.longestUptime.duration.isZero <;> simp [h1, h2, h3]

theorem statisticsData_last (env : Env) (j j1 : stats) :
    (statsJsonPrinter.statisticsData env j j1).LastSuccessfulProbe
        = (if j.lastSuccessfulProbe = 0 then none else some j.lastSuccessfulProbe)
    ∧ (statsJsonPrinter.statisticsData env j j1).LastUnsuccessfulProbe
        = (if j.lastUnsuccessfulProbe = 0 then none else some j.lastUnsuccessfulProbe) := by
  unfold statsJsonPrinter.statisticsData
  by_cases h1 : j.lastSuccessfulProbe = 0 <;> by_cases h2 : j.lastUnsuccessfulProbe = 0 <;>
    by_cases h3 : j1.longestUptime.duration.isZero <;> simp [h1, h2, h3, Time.IsZero]

theorem packetLoss_isZero_iff (p : stats) (hu : p.totalUnsuccessfulProbes < 2 ^ 64)
    (ht : 0 < totalPackets p) :
    (packetLoss p).isZero = true ↔ p.totalUnsuccessfulProbes = 0 := by
  constructor
  · intro h
    by_contra h0
    obtain ⟨q, hq, hpos, _⟩ := packetLoss_rel p (Nat.pos_of_ne_zero h0) hu ht
    rw [hq] at h
    simp [GoFloat.isZero, hpos.ne'] at h
  · intro h0
    rw [packetLoss_eq_zero p h0 ht]
    simp [GoFloat.isZero]

theorem statisticsData_rest (env : Env) (j j1 : stats) :
    (statsJsonPrinter.statisticsData env j j1).Latency = .fin 0
    ∧ (statsJsonPrinter.statisticsData env j j1).TotalUptime = Duration.Seconds j.totalUptime
    ∧ (statsJsonPrinter.statisticsData env j j1).TotalDowntime
        = Duration.Seconds j.totalDowntime := by
  unfold statsJsonPrinter.statisticsData
  by_cases h1 : j.lastSuccessfulProbe.IsZero <;> by_cases h2 : j.lastUnsuccessfulProbe.IsZero <;>
    by_cases h3 : j1.longestUptime.duration.isZero <;> simp [h1, h2, h3]

theorem seconds_zero : Duration.Seconds 0 = .fin 0 := by
  have h := seconds_whole 0 (by decide)
  simpa using h

theorem seconds_5 : Duration.Seconds 5000000000 = .fin 5 := by
  have h := seconds_whole 5 (by decide)
  norm_num at h
  exact h

/-- The object of type `stats` written for the store after five successful
probes, reported at second 12. -/
theorem allSucceeded_stats_object :
    ∃ line, line ∈ jsonLines (statsJsonPrinter.printStatistics (exampleEnv 12000000000)
        allSucceededStore).2
      ∧ (statsJsonPrinter.statisticsData (exampleEnv 12000000000) allSucceededStore
          (finalUpdate (exampleEnv 12000000000) allSucceededStore)).encode = some line := by
  have hpl : packetLoss allSucceededStore = .fin 0 :=
    packetLoss_eq_zero allSucceededStore rfl (by decide)
  have hsub : Time.Sub 6000000000 1000000000 = 5000000000 := by decide
  have hup : (finalUpdate (exampleEnv 12000000000) allSucceededStore).longestUptime
      = { start := 1000000000, finish := 6000000000, duration := .fin 5 } := by
    simp [finalUpdate, allSucceededStore, exampleStore, calcLongestUptime, exampleEnv,
      longestAfter, hsub, seconds_5, GoFloat.lt, GoFloat.le]
  obtain ⟨h1, _⟩ := statisticsData_TotalPacketLoss (exampleEnv 12000000000) allSucceededStore
    (finalUpdate (exampleEnv 12000000000) allSucceededStore)
  obtain ⟨h2, _⟩ := statisticsData_longest (exampleEnv 12000000000) allSucceededStore
    (finalUpdate (exampleEnv 12000000000) allSucceededStore)
  obtain ⟨h3, h4, h5⟩ := statisticsData_rest (exampleEnv 12000000000) allSucceededStore
    (finalUpdate (exampleEnv 12000000000) allSucceededStore)
  have h6 : Duration.Seconds allSucceededStore.totalUptime = .fin 0 := seconds_zero
  have h7 : Duration.Seconds allSucceededStore.totalDowntime = .fin 0 := seconds_zero
  have hsome := (encode_isSome_iff (statsJsonPrinter.statisticsData (exampleEnv 12000000000)
    allSucceededStore (finalUpdate (exampleEnv 12000000000) allSucceededStore))).2
    ⟨⟨0, h3⟩, ⟨5, by rw [h2, hup]; simp [GoFloat.isZero]⟩, ⟨0, by rw [h1, hpl]⟩,
      ⟨0, by rw [h4, h6]⟩, ⟨0, by rw [h5, h7]⟩⟩
  obtain ⟨line, hl⟩ := Option.isSome_iff_exists.1 hsome
  exact ⟨line, stats_object_mem _ _ line rfl hl, hl⟩

theorem round_err (q ulp : ℚ) (hulp : 0 < ulp) :
    |(roundHalfEven (q / ulp) : ℚ) * ulp - q| ≤ ulp / 2 := by
  have hr := roundHalfEven_sub_abs_le (q / ulp)
  have h3 : (roundHalfEven (q / ulp) : ℚ) * ulp - q
      = ((roundHalfEven (q / ulp) : ℚ) - q / ulp) * ulp := by
    field_simp
  rw [h3, abs_mul, abs_of_pos hulp]
  nlinarith

/-- A number of magnitude at most `2 ^ 1000` rounds to a finite float64, at
most about twice as large. -/
theorem round64_finite (q : ℚ) (h : |q| ≤ 2 ^ 1000) :
    ∃ r, round64 q = .fin r ∧ |r| ≤ 2 * |q| + 1 := by
  by_cases h0 : q = 0
  · subst h0
    exact ⟨0, round64_zero, by norm_num⟩
  have habs : 0 < |q| := abs_pos.2 h0
  have hlog : (2 : ℚ) ^ Int.log 2 |q| ≤ |q| := by
    exact_mod_cast Int.zpow_log_le_self (b := 2) (by norm_num) habs
  obtain ⟨e, he⟩ : ∃ e : Int, e = max (Int.log 2 |q|) (-1022) := ⟨_, rfl⟩
  have hpow : (2 : ℚ) ^ e ≤ |q| + 1 := by
    rw [he]
    rcases le_total (Int.log 2 |q|) (-1022) with hle | hle
    · rw [max_eq_right hle]
      have : (2 : ℚ) ^ (-1022 : Int) ≤ 2 ^ (0 : Int) :=
        zpow_le_zpow_right₀ (by norm_num) (by norm_num)
      simp only [zpow_zero] at this
      linarith
    · rw [max_eq_left hle]
      linarith
  obtain ⟨ulp, hu⟩ : ∃ u : ℚ, u = 2 ^ (e - (((53 : ℕ) : Int) - 1)) := ⟨_, rfl⟩
  have hulp : 0 < ulp := by rw [hu]; positivity
  have hule : ulp ≤ |q| + 1 := by
    have h1 : (2 : ℚ) ^ (e - (((53 : ℕ) : Int) - 1)) ≤ 2 ^ e :=
      zpow_le_zpow_right₀ (by norm_num) (by push_cast; omega)
    rw [hu]
    exact le_trans h1 hpow
  have herr := round_err q ulp hulp
  have hbound : |(roundHalfEven (q / ulp) : ℚ) * ulp| ≤ 2 * |q| + 1 := by
    have h4 := abs_sub_abs_le_abs_sub ((roundHalfEven (q / ulp) : ℚ) * ulp) q
    linarith
  refine ⟨(roundHalfEven (q / ulp) : ℚ) * ulp, ?_, hbound⟩
  unfold round64 roundFloat
  rw [if_neg h0]
  simp only []
  rw [← he, ← hu, if_neg]
  rw [not_le]
  have h5 : (2 : ℚ) * |q| + 1 < 2 ^ ((1023 : Int) + 1) := by
    rw [show ((1023 : Int) + 1) = ((1024 : ℕ) : Int) by rfl, zpow_natCast]
    have h6 : (2 : ℚ) * 2 ^ 1000 + 1 < 2 ^ 1024 := by norm_num
    linarith
  exact lt_of_le_of_lt hbound h5

/-- The seconds of a duration in the int64 range are a finite float64. -/
theorem seconds_finite (d : Duration) (h1 : minDuration ≤ d) (h2 : d ≤ maxDuration) :
    ∃ q, Duration.Seconds d = .fin q := by
  have hd : |(d : ℚ)| ≤ 2 ^ 63 := by
    have h1i : (-9223372036854775808 : Int) ≤ d := by
      unfold minDuration at h1; norm_num at h1; exact h1
    have h2i : d ≤ (9223372036854775807 : Int) := by
      unfold maxDuration at h2; norm_num at h2; exact h2
    have : |(d : Int)| ≤ 9223372036854775808 := by
      rw [abs_le]; constructor <;> linarith
    have h3 : |(d : ℚ)| ≤ 9223372036854775808 := by exact_mod_cast this
    norm_num
    exact h3
  have hsec : |((d.tdiv 1000000000 : Int) : ℚ)| ≤ 2 ^ 63 := by
    have h3 : (d.tdiv 1000000000).natAbs ≤ d.natAbs := by
      rw [Int.natAbs_tdiv]
      exact Nat.div_le_self _ _
    have h4 : |d.tdiv 1000000000| ≤ |d| := by
      rw [Int.abs_eq_natAbs, Int.abs_eq_natAbs]
      exact_mod_cast h3
    have h5 : |((d.tdiv 1000000000 : Int) : ℚ)| ≤ |(d : ℚ)| := by exact_mod_cast h4
    linarith
  have hnsec : |((d.tmod 1000000000 : Int) : ℚ)| ≤ 2 ^ 94 := by
    have h3 : d.tmod 1000000000 = d - 1000000000 * d.tdiv 1000000000 := by
      have := Int.tdiv_add_tmod d 1000000000
      omega
    rw [h3]
    push_cast
    have h4 := abs_sub (d : ℚ) (1000000000 * ((d.tdiv 1000000000 : Int) : ℚ))
    have h5 : |(1000000000 : ℚ) * ((d.tdiv 1000000000 : Int) : ℚ)|
        = 1000000000 * |((d.tdiv 1000000000 : Int) : ℚ)| := by
      rw [abs_mul, abs_of_pos (by norm_num : (0 : ℚ) < 1000000000)]
    rw [h5] at h4
    have h6 : (2 : ℚ) ^ 63 + 1000000000 * 2 ^ 63 ≤ 2 ^ 94 := by norm_num
    linarith
  obtain ⟨a, ha, hab⟩ := round64_finite _ (le_trans hsec (by norm_num))
  obtain ⟨b, hb, hbb⟩ := round64_finite _ (le_trans hnsec (by norm_num))
  have hq : |b / 1000000000| ≤ |b| := by
    rw [abs_div, abs_of_pos (by norm_num : (0 : ℚ) < 1000000000)]
    exact div_le_self (abs_nonneg b) (by norm_num)
  have hb2 : |b| ≤ 2 ^ 96 := by
    have : (2 : ℚ) * 2 ^ 94 + 1 ≤ 2 ^ 96 := by norm_num
    linarith
  obtain ⟨c, hc, hcb⟩ := round64_finite (b / 1000000000) (by
    have : (2 : ℚ) ^ 96 ≤ 2 ^ 1000 := by norm_num
    linarith)
  have ha2 : |a| ≤ 2 ^ 65 := by
    have : (2 : ℚ) * 2 ^ 63 + 1 ≤ 2 ^ 65 := by norm_num
    linarith
  have hc2 : |c| ≤ 2 ^ 98 := by
    have : (2 : ℚ) * 2 ^ 96 + 1 ≤ 2 ^ 98 := by norm_num
    linarith
  obtain ⟨s, hs, _⟩ := round64_finite (a + c) (by
    have h7 := abs_add a c
    have : (2 : ℚ) ^ 65 + 2 ^ 98 ≤ 2 ^ 1000 := by norm_num
    linarith)
  refine ⟨s, ?_⟩
  simp [Duration.Seconds, float64OfInt, ha, hb, GoFloat.div, GoFloat.add, hc, hs]

theorem time_sub_range (t u : Time) :
    minDuration ≤ Time.Sub t u ∧ Time.Sub t u ≤ maxDuration := by
  unfold Time.Sub
  refine ⟨le_max_left _ _, max_le ?_ (min_le_left _ _)⟩
  unfold minDuration maxDuration
  norm_num

/-- The interval the tracker of §4.1 stores has a finite duration when the
interval stored before has one. -/
theorem longestAfter_finite (stored : longestTime) (start reference : Time)
    (h : ∃ d, stored.duration = .fin d) :
    ∃ d, (longestAfter stored start reference).duration = .fin d := by
  unfold longestAfter
  obtain ⟨h1, h2⟩ := time_sub_range reference start
  obtain ⟨q, hq⟩ := seconds_finite _ h1 h2
  simp only []
  split_ifs
  · exact ⟨q, hq⟩
  · exact h

/-- The events of the structured `printStatistics` on a store with RTT
results. -/
theorem printStatistics_json_events (env : Env) (j : stats)
    (hr : (env.findMinAvgMaxRttTime j.rtt).hasResults = true) :
    (statsJsonPrinter.printStatistics env j).2 =
      ([finalUpdateCall j]
        ++ statsJsonPrinter.printLongestDowntime env (finalUpdate env j)
        ++ (if !(finalUpdate env j).isIP then
            statsJsonPrinter.printRetryResolveStats (finalUpdate env j) else [])
        ++ jsonPrintf "rtt min/avg/max: %.3f/%.3f/%.3f"
            [.float (env.findMinAvgMaxRttTime j.rtt).min,
              .float (env.findMinAvgMaxRttTime j.rtt).average,
              .float (env.findMinAvgMaxRttTime j.rtt).max]
        ++ statsJsonPrinter.printDurationStats env (finalUpdate env j))
      ++ printJson (statsJsonPrinter.statisticsData env j (finalUpdate env j)) := by
  simp only [statsJsonPrinter.printStatistics, hr, Bool.not_true, Bool.false_eq_true, if_false]

/-- On a store with RTT results whose float fields are finite, the object of
type `stats` is written. -/
theorem stats_object_written (env : Env) (p : stats)
    (hr : (env.findMinAvgMaxRttTime p.rtt).hasResults = true)
    (hl : ∃ q, packetLoss p = .fin q)
    (hd : ∃ d, (finalUpdate env p).longestUptime.duration = .fin d)
    (hup : minDuration ≤ p.totalUptime ∧ p.totalUptime ≤ maxDuration)
    (hdown : minDuration ≤ p.totalDowntime ∧ p.totalDowntime ≤ maxDuration) :
    ∃ line, line ∈ jsonLines (statsJsonPrinter.printStatistics env p).2
      ∧ (statsJsonPrinter.statisticsData env p (finalUpdate env p)).encode = some line
      ∧ line.has "type" = true := by
  obtain ⟨h1, _⟩ := statisticsData_TotalPacketLoss env p (finalUpdate env p)
  obtain ⟨h2, _⟩ := statisticsData_longest env p (finalUpdate env p)
  obtain ⟨h3, h4, h5⟩ := statisticsData_rest env p (finalUpdate env p)
  have hlu : ∃ q, (statsJsonPrinter.statisticsData env p (finalUpdate env p)).LongestUptime
      = .fin q := by
    rw [h2]
    split_ifs
    · exact ⟨0, rfl⟩
    · exact hd
  have hsome := (encode_isSome_iff (statsJsonPrinter.statisticsData env p
    (finalUpdate env p))).2
    ⟨⟨0, h3⟩, hlu, by rw [h1]; exact hl, by rw [h4]; exact seconds_finite _ hup.1 hup.2,
      by rw [h5]; exact seconds_finite _ hdown.1 hdown.2⟩
  obtain ⟨line, hline⟩ := Option.isSome_iff_exists.1 hsome
  refine ⟨line, stats_object_mem env p line hr hline, hline, ?_⟩
  rw [Record.has, encode_type _ _ hline]
  rfl

/-- The tracker of the example environment leaves the longest uptime of the
store after seven successful and three failed probes finite. -/
theorem sevenOfTen_longest_finite (now : Time) :
    ∃ d, (finalUpdate (exampleEnv now) sevenOfTenStore).longestUptime.duration = .fin d :=
  longestAfter_finite sevenOfTenStore.longestUptime sevenOfTenStore.startOfUptime
    sevenOfTenStore.lastSuccessfulProbe ⟨0, rfl⟩

theorem zero_in_range : minDuration ≤ (0 : Duration) ∧ (0 : Duration) ≤ maxDuration := by
  unfold minDuration maxDuration
  norm_num

/-! ## Properties of the two reporters -/

theorem seconds_130 : Duration.Seconds 130000000000 = .fin 130 := by
  have h := seconds_whole 130 (by decide)
  norm_num at h
  exact h

theorem sub_130 (T : Time) : Time.Sub (T + 130000000000) T = 130000000000 := by
  simp [Time.Sub, maxDuration, minDuration]

theorem toUint_ceil_130 (env : Env) : toUint env (GoFloat.ceil (.fin 130)) = 130 := by
  norm_num [toUint, uintOfFloat, GoFloat.ceil]
  rfl

/-- C1, the code at the failing input. With `startOfDowntime = T`, the argument
`now = T + 125 s` and the clock reading `T + 130 s`, both reporters render
`calcTime 130`, not `calcTime 125`: the duration comes from the clock
(`time.Since`), and for every store the output is the same whatever the
argument `now` is. With the duration rendering of §8 (minutes:seconds) a store
down since second 2, asked at second 127 while the clock reads second 132,
prints 2:10, not 2:05. -/
theorem printTotalDownTime_reads_clock (env : Env) (p : stats) (T : Time) :
    statsPlanePrinter.printTotalDownTime { env with now := T + 130000000000 }
        { p with startOfDowntime := T } (T + 125000000000)
      = [.print .yellow "No response received for %s\n" [.str (env.calcTime 130)]]
    ∧ statsJsonPrinter.printTotalDownTime { env with now := T + 130000000000 }
        { p with startOfDowntime := T } (T + 125000000000)
      = [.json [("message",
          .str (Sprintf "No response received for %s" [.str (env.calcTime 130)]))]]
    ∧ (∀ now1 now2 : Time,
        statsPlanePrinter.printTotalDownTime env p now1
          = statsPlanePrinter.printTotalDownTime env p now2
        ∧ statsJsonPrinter.printTotalDownTime env p now1
          = statsJsonPrinter.printTotalDownTime env p now2)
    ∧ (statsPlanePrinter.printTotalDownTime (exampleEnv 132000000000) failedOnceStore
        127000000000).map Event.text = ["No response received for 2:10\n"] := by
  refine ⟨?_, ?_, fun _ _ => ⟨rfl, rfl⟩, ?_⟩
  · simp only [statsPlanePrinter.printTotalDownTime, Since, sub_130, seconds_130]
    rw [toUint_ceil_130]
  · simp only [statsJsonPrinter.printTotalDownTime, Since, sub_130, seconds_130, jsonPrintf]
    rw [toUint_ceil_130]
  · have h : Since (exampleEnv 132000000000) failedOnceStore.startOfDowntime = 130000000000 := by
      decide
    simp only [statsPlanePrinter.printTotalDownTime, h, seconds_130]
    rw [toUint_ceil_130]
    decide

/-- C2, the code at the failing input. For every store,
`printRetryResolveStats`, `printTotalDownTime` and `printDurationStats` of the
structured-event reporter each write one object whose only field is `message`
(they go through `jsonPrintf`), and so does `printLongestDowntime` when the
longest downtime is not zero: such an object has no `type` and no `timestamp`
field. -/
theorem jsonPrintf_objects_lack_type_and_timestamp (env : Env) (j : stats) (now : Time) :
    (∃ m, statsJsonPrinter.printRetryResolveStats j = [.json [("message", .str m)]])
    ∧ (∃ m, statsJsonPrinter.printTotalDownTime env j now = [.json [("message", .str m)]])
    ∧ (∃ m, statsJsonPrinter.printDurationStats env j = [.json [("message", .str m)]])
    ∧ (statsJsonPrinter.printLongestDowntime env j = []
        ∨ ∃ m, statsJsonPrinter.printLongestDowntime env j = [.json [("message", .str m)]])
    ∧ (∀ m : String, Record.has [("message", .str m)] "message" = true
        ∧ Record.has [("message", .str m)] "type" = false
        ∧ Record.has [("message", .str m)] "timestamp" = false)
    ∧ statsJsonPrinter.printRetryResolveStats exampleStore
        = [.json [("message", .str "retried to resolve hostname 0 times")]] := by
  refine ⟨⟨_, rfl⟩, ⟨_, rfl⟩, ⟨_, rfl⟩, ?_, ?_, by decide⟩
  · unfold statsJsonPrinter.printLongestDowntime
    by_cases h : j.longestDowntime.duration.isZero
    · left; simp [h]
    · right; simp [h, jsonPrintf]
  · intro m
    simp [Record.has, Record.get]

/-- C3, as amended. For every store whose target is a hostname (`isIP` false)
with a non-empty hostname, a non-zero port and a non-zero
`totalUnsuccessfulProbes`, and every reply carrying the no-reply marker,
`statsJsonPrinter.printReply` writes one object: its type is `probe`, `success`
is present and false, `latency` and `total_successful_probes` are absent, and
it carries the hostname, the resolved address, the port and
`total_unsuccessful_probes` equal to the store's counter. -/
theorem printReply_noReply_record (env : Env) (j : stats) (reply : replyMsg)
    (hIP : j.isIP = false) (hmsg : reply.msg = noReply) (hhost : j.hostname ≠ "")
    (hport : j.port ≠ 0) (hcnt : j.totalUnsuccessfulProbes ≠ 0) :
    ∃ line, statsJsonPrinter.printReply env j reply = [.json line]
      ∧ line.get "type" = some (.str "probe")
      ∧ line.get "success" = some (.bool false)
      ∧ line.has "latency" = false
      ∧ line.has "total_successful_probes" = false
      ∧ line.get "hostname" = some (.str j.hostname)
      ∧ line.get "addr" = some (.str j.ip.String)
      ∧ line.get "port" = some (.uint j.port)
      ∧ line.get "total_unsuccessful_probes" = some (.uint j.totalUnsuccessfulProbes) := by
  have hip : j.ip.text ≠ "" := j.ip.nonempty
  simp [statsJsonPrinter.printReply, statsJsonPrinter.replyData, printJson, JSONData.encode,
    omitEmptyFloat, omitEmptyString, omitEmptyUint, omitEmptyBoolPtr, omitEmptyTimePtr,
    Record.get, Record.has, hIP, hmsg, hhost, hport, hcnt, hip, ipAddress.String, Probe]

/-- C3, witness: `example.com` resolved to `93.184.216.34` on port 443, the
counter just raised to 1 by the failed probe. -/
theorem printReply_noReply_record_witness :
    ∃ line, statsJsonPrinter.printReply (exampleEnv 2000000000) failedOnceStore
        { msg := noReply, rtt := .fin 0 } = [.json line]
      ∧ line.get "type" = some (.str "probe")
      ∧ line.get "success" = some (.bool false)
      ∧ line.has "latency" = false
      ∧ line.has "total_successful_probes" = false
      ∧ line.get "hostname" = some (.str "example.com")
      ∧ line.get "addr" = some (.str "93.184.216.34")
      ∧ line.get "port" = some (.uint 443)
      ∧ line.get "total_unsuccessful_probes" = some (.uint 1) :=
  printReply_noReply_record (exampleEnv 2000000000) failedOnceStore
    { msg := noReply, rtt := .fin 0 } rfl rfl (by decide) (by decide) (by decide)

/-- C3, counterexample. On the hostname store whose `totalUnsuccessfulProbes`
is still 0, the object written for a no-reply probe has no
`total_unsuccessful_probes` field; with port 0 it has no `port` field, and with
an empty hostname no `hostname` field: `omitempty` drops a zero value. -/
theorem printReply_noReply_zero_fields_omitted :
    (jsonLines (statsJsonPrinter.printReply (exampleEnv 2000000000) exampleStore
        { msg := noReply, rtt := .fin 0 })).map
      (fun line => line.has "total_unsuccessful_probes") = [false]
    ∧ (jsonLines (statsJsonPrinter.printReply (exampleEnv 2000000000)
        { failedOnceStore with port := 0 } { msg := noReply, rtt := .fin 0 })).map
      (fun line => line.has "port") = [false]
    ∧ (jsonLines (statsJsonPrinter.printReply (exampleEnv 2000000000)
        { failedOnceStore with hostname := "" } { msg := noReply, rtt := .fin 0 })).map
      (fun line => line.has "hostname") = [false] := by
  simp [statsJsonPrinter.printReply, statsJsonPrinter.replyData, printJson, JSONData.encode,
    omitEmptyFloat, omitEmptyString, omitEmptyUint, omitEmptyBoolPtr, omitEmptyTimePtr,
    Record.get, Record.has, jsonLines, exampleStore, failedOnceStore, noReply]

/-- C4, as amended. Every object written by `statsJsonPrinter.printReply` has
type `probe` and carries `success`, true exactly when the reply is not the
no-reply marker; it contains `latency` if and only if the probe succeeded and
the reply's rtt is not zero (a zero latency is dropped by `omitempty`), and a
`latency` that is present equals the rtt. An object is written whenever the
probe failed or the rtt is a finite number. -/
theorem printReply_success_latency (env : Env) (j : stats) (reply : replyMsg) :
    (∀ line ∈ jsonLines (statsJsonPrinter.printReply env j reply),
      line.get "type" = some (.str "probe")
      ∧ line.get "success" = some (.bool (decide (reply.msg ≠ noReply)))
      ∧ (line.has "latency" = true ↔ reply.msg ≠ noReply ∧ reply.rtt.isZero = false)
      ∧ (∀ v, line.get "latency" = some v → ∃ q, reply.rtt = .fin q ∧ v = .number q))
    ∧ ((reply.msg = noReply ∨ ∃ q, reply.rtt = .fin q) →
        ∃ line, statsJsonPrinter.printReply env j reply = [.json line]) := by
  have hsome := encode_isSome_iff (statsJsonPrinter.replyData env j reply)
  obtain ⟨o1, o2, o3, o4⟩ := replyData_others env j reply
  constructor
  · intro line hline
    have henc := mem_jsonLines_printJson _ _ hline
    have hfin : ∃ q, (statsJsonPrinter.replyData env j reply).Latency = .fin q :=
      (hsome.1 (by rw [henc]; rfl)).1
    rw [replyData_Latency] at hfin
    refine ⟨?_, ?_, ?_, ?_⟩
    · rw [encode_type _ _ henc, replyData_Type]
    · rw [encode_success _ _ henc, replyData_Success]; rfl
    · rw [Record.has, encode_latency _ _ henc, replyData_Latency, floatValue_isSome]
      by_cases hmsg : reply.msg = noReply
      · simp [hmsg, GoFloat.isZero]
      · simp only [hmsg, if_false] at hfin
        simp [hmsg, hfin]
    · intro v hv
      rw [encode_latency _ _ henc, replyData_Latency] at hv
      by_cases hmsg : reply.msg = noReply
      · simp [hmsg, floatValue] at hv
      · simp only [hmsg, if_false] at hv
        obtain ⟨q, h1, _, h3⟩ := floatValue_eq_some _ _ hv
        exact ⟨q, h1, h3⟩
  · intro h
    have hfin : ∃ q, (statsJsonPrinter.replyData env j reply).Latency = .fin q := by
      rw [replyData_Latency]
      by_cases hmsg : reply.msg = noReply
      · exact ⟨0, by simp [hmsg]⟩
      · rcases h with h | ⟨q, hq⟩
        · exact absurd h hmsg
        · exact ⟨q, by simp [hmsg, hq]⟩
    have h2 := hsome.2 ⟨hfin, ⟨0, o1⟩, ⟨0, o2⟩, ⟨0, o3⟩, ⟨0, o4⟩⟩
    obtain ⟨line, hl⟩ := Option.isSome_iff_exists.1 h2
    exact ⟨line, by simp [statsJsonPrinter.printReply, printJson, hl]⟩

/-- C4, witness: a successful probe of 12.5 ms on the example store. -/
theorem printReply_success_latency_witness :
    ∃ line, statsJsonPrinter.printReply (exampleEnv 2000000000) allSucceededStore
        { msg := "Reply", rtt := .fin (25 / 2) } = [.json line] :=
  (printReply_success_latency (exampleEnv 2000000000) allSucceededStore
    { msg := "Reply", rtt := .fin (25 / 2) }).2 (Or.inr ⟨25 / 2, rfl⟩)

/-- C4, counterexample. A successful probe whose measured rtt is 0 ms: the
object written has `success` true and no `latency` field. -/
theorem printReply_zero_latency_omitted :
    (jsonLines (statsJsonPrinter.printReply (exampleEnv 2000000000) allSucceededStore
        { msg := "Reply", rtt := .fin 0 })).map
      (fun line => (line.get "success", line.has "latency"))
      = [(some (.bool true), false)] := by
  simp [statsJsonPrinter.printReply, statsJsonPrinter.replyData, printJson, JSONData.encode,
    omitEmptyFloat, omitEmptyString, omitEmptyUint, omitEmptyBoolPtr, omitEmptyTimePtr,
    Record.get, Record.has, jsonLines, exampleStore, allSucceededStore, noReply]

/-- C5, as amended. `printStatistics` performs the packet-loss division with no
check of the total: the plain report of every store contains the figure
`packetLoss`, and on every store whose RTT aggregator has results the
structured reporter puts it in `TotalPacketLoss` of the data it hands to the
encoder, last of its events. With a non-zero total (counters in `uint` range)
the divisor is not zero and the figure is a finite number, which the object of
type `stats` then carries unless it is zero; with no probe counted the float32
division `0 / 0` is performed and gives NaN, which Go does not fault on, and
the encoder writes no object for data whose `TotalPacketLoss` is NaN. -/
theorem printStatistics_divides_unguarded (env : Env) (p : stats) :
    Event.print (statsPlanePrinter.packetLossColor (packetLoss p)) "%.2f%%"
        [.float (packetLoss p)] ∈ (statsPlanePrinter.printStatistics env p).2
    ∧ (p.totalUnsuccessfulProbes < 2 ^ 64 → 0 < totalPackets p → ∃ q, packetLoss p = .fin q)
    ∧ (p.totalSuccessfulProbes = 0 → p.totalUnsuccessfulProbes = 0 →
        totalPackets p = 0 ∧ packetLoss p = .nan)
    ∧ ((env.findMinAvgMaxRttTime p.rtt).hasResults = true →
        (∃ before, (statsJsonPrinter.printStatistics env p).2 =
          before ++ printJson (statsJsonPrinter.statisticsData env p (finalUpdate env p)))
        ∧ (statsJsonPrinter.statisticsData env p (finalUpdate env p)).TotalPacketLoss
            = packetLoss p
        ∧ (packetLoss p = .nan →
            printJson (statsJsonPrinter.statisticsData env p (finalUpdate env p)) = [])
        ∧ (∀ q, packetLoss p = .fin q →
            (∃ d, (finalUpdate env p).longestUptime.duration = .fin d) →
            (minDuration ≤ p.totalUptime ∧ p.totalUptime ≤ maxDuration) →
            (minDuration ≤ p.totalDowntime ∧ p.totalDowntime ≤ maxDuration) →
            ∃ line, line ∈ jsonLines (statsJsonPrinter.printStatistics env p).2
              ∧ line.get "type" = some (.str "stats")
              ∧ line.get "total_packet_loss" = if q = 0 then none else some (.number q))) := by
  refine ⟨packetLoss_mem_printStatistics env p, packetLoss_finite p, ?_, ?_⟩
  · intro hs hu
    exact ⟨by simp [totalPackets, hs, hu], packetLoss_zero_probes p hs hu⟩
  · intro hr
    obtain ⟨h1, _, _, _, h5⟩ := statisticsData_TotalPacketLoss env p (finalUpdate env p)
    refine ⟨⟨_, printStatistics_json_events env p hr⟩, h1, ?_, ?_⟩
    · intro hnan
      have hnone : (statsJsonPrinter.statisticsData env p (finalUpdate env p)).encode = none := by
        cases henc : (statsJsonPrinter.statisticsData env p (finalUpdate env p)).encode with
        | none => rfl
        | some line =>
          have h2 := (encode_isSome_iff _).1 (by rw [henc]; rfl)
          obtain ⟨q, hq⟩ := h2.2.2.1
          rw [h1, hnan] at hq
          cases hq
      simp [printJson, hnone]
    · intro q hq hd hup hdown
      obtain ⟨line, hmem, henc, _⟩ := stats_object_written env p hr ⟨q, hq⟩ hd hup hdown
      refine ⟨line, hmem, ?_, ?_⟩
      · rw [encode_type _ _ henc, h5]
      · rw [encode_total_packet_loss _ _ henc, h1, hq]
        rfl

/-- C5, witness: for the store after seven successful and three failed probes
the figure is finite and the object of type `stats` carries it. -/
theorem printStatistics_divides_unguarded_witness :
    (∃ q, packetLoss sevenOfTenStore = .fin q)
    ∧ ∃ line, line ∈ jsonLines (statsJsonPrinter.printStatistics (exampleEnv 12000000000)
          sevenOfTenStore).2
        ∧ line.get "type" = some (.str "stats")
        ∧ line.get "total_packet_loss" =
            if (15728641 / 524288 : ℚ) = 0 then none
            else some (.number (15728641 / 524288)) :=
  ⟨(printStatistics_divides_unguarded (exampleEnv 12000000000) sevenOfTenStore).2.1
      (by decide) (by decide),
    ((printStatistics_divides_unguarded (exampleEnv 12000000000) sevenOfTenStore).2.2.2
      rfl).2.2.2 (15728641 / 524288) (packetLoss_7_3 sevenOfTenStore rfl rfl)
      (sevenOfTen_longest_finite 12000000000) zero_in_range zero_in_range⟩

/-- C5, counterexample. On the store of a session without any probe the total
is 0, the quotient is computed all the same, it is NaN, and the plain report
prints it as `NaN%`; on a store that holds an RTT sample while no probe is
counted the structured reporter, whose aggregator has results, computes the
same NaN for `TotalPacketLoss`. -/
theorem printStatistics_zero_total_divides :
    totalPackets exampleStore = 0
    ∧ packetLoss exampleStore = .nan
    ∧ Event.print .red "%.2f%%" [.float .nan]
        ∈ (statsPlanePrinter.printStatistics (exampleEnv 2000000000) exampleStore).2
    ∧ (Event.print .red "%.2f%%" [.float .nan]).text = "NaN%"
    ∧ ((exampleEnv 2000000000).findMinAvgMaxRttTime samplesWithoutCountStore.rtt).hasResults
        = true
    ∧ totalPackets samplesWithoutCountStore = 0
    ∧ (statsJsonPrinter.statisticsData (exampleEnv 2000000000) samplesWithoutCountStore
        (finalUpdate (exampleEnv 2000000000) samplesWithoutCountStore)).TotalPacketLoss
        = .nan := by
  have h := packetLoss_mem_printStatistics (exampleEnv 2000000000) exampleStore
  rw [packetLoss_zero_probes exampleStore rfl rfl] at h
  refine ⟨by decide, packetLoss_zero_probes exampleStore rfl rfl, h, by decide, rfl,
    by decide, ?_⟩
  rw [(statisticsData_TotalPacketLoss _ _ _).1]
  exact packetLoss_zero_probes samplesWithoutCountStore rfl rfl

/-- C6, as amended. For every store with counters in `uint` range and a total
`totalSuccessfulProbes + totalUnsuccessfulProbes` greater than 0, the
packet-loss figure is a finite float32 `q` within `2 ^ (-21)`, relatively, of
`totalUnsuccessfulProbes / total * 100` (it is that expression evaluated in
float32), zero exactly when no probe failed. The plain report prints the total
as its probe count and `q` with two decimals, `30.00%` for 7 successful and 3
failed probes. The structured reporter puts `q` in `TotalPacketLoss` and the
total in `TotalPackets`; on such a store whose RTT aggregator has results (and
whose durations are finite) it writes an object of type `stats` in which
`total_packets` is the total and `total_packet_loss` is `q` when a probe
failed and is absent when none did. -/
theorem packetLoss_reported (env : Env) (p : stats)
    (hu : p.totalUnsuccessfulProbes < 2 ^ 64) (ht : 0 < totalPackets p) :
    ∃ q, packetLoss p = .fin q
      ∧ |q - 100 * (p.totalUnsuccessfulProbes : ℚ) / (totalPackets p : ℚ)|
          ≤ 100 * (p.totalUnsuccessfulProbes : ℚ) / (totalPackets p : ℚ) * (1 / 2 ^ 21)
      ∧ (q = 0 ↔ p.totalUnsuccessfulProbes = 0)
      ∧ Event.print .yellow "%d probes transmitted on port %d | "
          [.uint (totalPackets p), .uint p.port] ∈ (statsPlanePrinter.printStatistics env p).2
      ∧ Event.print (statsPlanePrinter.packetLossColor (.fin q)) "%.2f%%" [.float (.fin q)]
          ∈ (statsPlanePrinter.printStatistics env p).2
      ∧ (Event.print (statsPlanePrinter.packetLossColor (.fin q)) "%.2f%%"
          [.float (.fin q)]).text = fmtFixed 2 (.fin q) ++ "%"
      ∧ (p.totalSuccessfulProbes = 7 → p.totalUnsuccessfulProbes = 3 →
          (Event.print (statsPlanePrinter.packetLossColor (.fin q)) "%.2f%%"
            [.float (.fin q)]).text = "30.00%")
      ∧ (∀ j1, (statsJsonPrinter.statisticsData env p j1).TotalPacketLoss = .fin q
          ∧ (statsJsonPrinter.statisticsData env p j1).TotalPackets = totalPackets p)
      ∧ ((env.findMinAvgMaxRttTime p.rtt).hasResults = true →
          (∃ d, (finalUpdate env p).longestUptime.duration = .fin d) →
          (minDuration ≤ p.totalUptime ∧ p.totalUptime ≤ maxDuration) →
          (minDuration ≤ p.totalDowntime ∧ p.totalDowntime ≤ maxDuration) →
          ∃ line, line ∈ jsonLines (statsJsonPrinter.printStatistics env p).2
            ∧ line.get "type" = some (.str "stats")
            ∧ line.get "total_packets" = some (.uint (totalPackets p))
            ∧ line.get "total_packet_loss" =
                if p.totalUnsuccessfulProbes = 0 then none else some (.number q))
      ∧ (∀ line ∈ jsonLines (statsJsonPrinter.printStatistics env p).2,
          line.has "type" = true →
            line.get "total_packets" = some (.uint (totalPackets p))
            ∧ line.get "total_packet_loss" =
                if p.totalUnsuccessfulProbes = 0 then none else some (.number q)) := by
  have hval : ∃ q, packetLoss p = .fin q
      ∧ |q - 100 * (p.totalUnsuccessfulProbes : ℚ) / (totalPackets p : ℚ)|
          ≤ 100 * (p.totalUnsuccessfulProbes : ℚ) / (totalPackets p : ℚ) * (1 / 2 ^ 21)
      ∧ (q = 0 ↔ p.totalUnsuccessfulProbes = 0) := by
    rcases Nat.eq_zero_or_pos p.totalUnsuccessfulProbes with h0 | h0
    · exact ⟨0, packetLoss_eq_zero p h0 ht, by simp [h0], by simp [h0]⟩
    · obtain ⟨q, hq, hpos, hb⟩ := packetLoss_rel p h0 hu ht
      exact ⟨q, hq, hb, ⟨fun h => absurd h hpos.ne', fun h => absurd h h0.ne'⟩⟩
  obtain ⟨q, hq, hb, hz⟩ := hval
  have hmem := packetLoss_mem_printStatistics env p
  rw [hq] at hmem
  have hfields : ∀ line, (statsJsonPrinter.statisticsData env p (finalUpdate env p)).encode
      = some line →
      line.get "total_packets" = some (.uint (totalPackets p))
      ∧ line.get "total_packet_loss" =
          if p.totalUnsuccessfulProbes = 0 then none else some (.number q) := by
    intro line henc
    obtain ⟨h1, h2, _⟩ := statisticsData_TotalPacketLoss env p (finalUpdate env p)
    constructor
    · rw [encode_total_packets _ _ henc, h2, if_neg (Nat.pos_iff_ne_zero.1 ht)]
    · rw [encode_total_packet_loss _ _ henc, h1, hq]
      by_cases h0 : p.totalUnsuccessfulProbes = 0
      · simp [floatValue, h0, hz.2 h0]
      · have hq0 : q ≠ 0 := fun h => h0 (hz.1 h)
        simp [floatValue, h0, hq0]
  refine ⟨q, hq, hb, hz, totalPackets_mem_printStatistics env p, hmem, sprintf_loss _, ?_, ?_,
    ?_, ?_⟩
  · intro hs h3
    have h7 := packetLoss_7_3 p hs h3
    rw [hq] at h7
    rw [h7]
    exact fmtFixed_30
  · intro j1
    obtain ⟨h1, h2, _⟩ := statisticsData_TotalPacketLoss env p j1
    exact ⟨h1.trans hq, h2⟩
  · intro hr hd hup hdown
    obtain ⟨line, hmem2, henc, _⟩ := stats_object_written env p hr ⟨q, hq⟩ hd hup hdown
    obtain ⟨_, _, _, _, h5⟩ := statisticsData_TotalPacketLoss env p (finalUpdate env p)
    exact ⟨line, hmem2, by rw [encode_type _ _ henc, h5], hfields line henc⟩
  · intro line hline hty
    obtain ⟨_, henc⟩ := stats_object_of_mem env p line hline hty
    exact hfields line henc

/-- C6, witness: for the store after seven successful and three failed probes
the plain report prints `30.00%` and the object of type `stats` is written with
`total_packets` 10 and a `total_packet_loss`. -/
theorem packetLoss_reported_witness :
    ∃ q, packetLoss sevenOfTenStore = .fin q
      ∧ (Event.print (statsPlanePrinter.packetLossColor (.fin q)) "%.2f%%"
          [.float (.fin q)]).text = "30.00%"
      ∧ ∃ line, line ∈ jsonLines (statsJsonPrinter.printStatistics (exampleEnv 12000000000)
            sevenOfTenStore).2
          ∧ line.get "type" = some (.str "stats")
          ∧ line.get "total_packets" = some (.uint (totalPackets sevenOfTenStore))
          ∧ line.get "total_packet_loss" =
              if sevenOfTenStore.totalUnsuccessfulProbes = 0 then none
              else some (.number q) := by
  obtain ⟨q, h1, _, _, _, _, _, h3, _, h4, _⟩ :=
    packetLoss_reported (exampleEnv 12000000000) sevenOfTenStore (by decide) (by decide)
  exact ⟨q, h1, h3 rfl rfl,
    h4 rfl (sevenOfTen_longest_finite 12000000000) zero_in_range zero_in_range⟩

/-- C6, counterexample. The store after five successful probes and no failed
one has a total of 5, and the figure `0 / 5 * 100` is 0; the object of type
`stats` is written with `total_packets` 5 and without any `total_packet_loss`:
the figure is not put in the record. -/
theorem packetLoss_zero_not_in_object :
    0 < totalPackets allSucceededStore
    ∧ packetLoss allSucceededStore = .fin 0
    ∧ ∃ line, line ∈ jsonLines (statsJsonPrinter.printStatistics (exampleEnv 12000000000)
          allSucceededStore).2
        ∧ line.get "type" = some (.str "stats")
        ∧ line.get "total_packets" = some (.uint 5)
        ∧ line.get "total_packet_loss" = none := by
  obtain ⟨line, hmem, henc⟩ := allSucceeded_stats_object
  obtain ⟨h1, h2, _, _, h5⟩ := statisticsData_TotalPacketLoss (exampleEnv 12000000000)
    allSucceededStore (finalUpdate (exampleEnv 12000000000) allSucceededStore)
  have hpl : packetLoss allSucceededStore = .fin 0 :=
    packetLoss_eq_zero allSucceededStore rfl (by decide)
  refine ⟨by decide, hpl, line, hmem, ?_, ?_, ?_⟩
  · rw [encode_type _ _ henc, h5]
  · rw [encode_total_packets _ _ henc, h2]; rfl
  · rw [encode_total_packet_loss _ _ henc, h1, hpl]; rfl

/-- C7, the code at the failing input. On a store without RTT samples (every
probe failed), with the RTT aggregator of §4.2, the structured reporter's
`printStatistics` returns at once: it writes nothing and leaves the store as it
was, while the plain reporter prints its report, without the RTT summary only:
the probe count, the packet-loss figure, and the duration statistics are there. -/
theorem printStatistics_json_silent_without_rtt (env : Env) (p : stats) :
    statsJsonPrinter.printStatistics
        { env with findMinAvgMaxRttTime := findMinAvgMaxRttTime } { p with rtt := [] }
      = ({ p with rtt := [] }, [])
    ∧ Event.print .yellow "%d probes transmitted on port %d | "
        [.uint (totalPackets p), .uint p.port]
        ∈ (statsPlanePrinter.printStatistics
            { env with findMinAvgMaxRttTime := findMinAvgMaxRttTime } { p with rtt := [] }).2
    ∧ Event.print (statsPlanePrinter.packetLossColor (packetLoss p)) "%.2f%%"
        [.float (packetLoss p)]
        ∈ (statsPlanePrinter.printStatistics
            { env with findMinAvgMaxRttTime := findMinAvgMaxRttTime } { p with rtt := [] }).2
    ∧ Event.print .yellow "--------------------------------------\n" []
        ∈ (statsPlanePrinter.printStatistics
            { env with findMinAvgMaxRttTime := findMinAvgMaxRttTime } { p with rtt := [] }).2
    ∧ Event.print .yellow "rtt " []
        ∉ (statsPlanePrinter.printStatistics
            { env with findMinAvgMaxRttTime := findMinAvgMaxRttTime } { p with rtt := [] }).2
    ∧ (jsonLines (statsJsonPrinter.printStatistics (exampleEnv 7000000000) allFailedStore).2 = []
        ∧ (statsPlanePrinter.printStatistics (exampleEnv 7000000000) allFailedStore).2 ≠ []) := by
  refine ⟨?_, ?_, ?_, ?_, ?_, ?_, ?_⟩
  · simp [statsJsonPrinter.printStatistics, findMinAvgMaxRttTime]
  · exact totalPackets_mem_printStatistics _ _
  · exact packetLoss_mem_printStatistics _ _
  · simp [statsPlanePrinter.printStatistics, statsPlanePrinter.printDurationStats]
  · have hr : (finalUpdate { env with findMinAvgMaxRttTime := findMinAvgMaxRttTime }
        { p with rtt := [] }).rtt = [] := (finalUpdate_frame _ _).2.1
    simp [statsPlanePrinter.printStatistics, hr, findMinAvgMaxRttTime,
      statsPlanePrinter.printLastSucUnsucProbes, statsPlanePrinter.printLongestUptime,
      statsPlanePrinter.printLongestDowntime, statsPlanePrinter.printRetryResolveStats,
      statsPlanePrinter.printDurationStats, finalUpdateCall]
    refine ⟨?_, ?_, ?_, ?_⟩ <;> split_ifs <;> simp
  · simp [statsJsonPrinter.printStatistics, exampleEnv, allFailedStore, exampleStore,
      findMinAvgMaxRttTime, jsonLines]
  · simp [statsPlanePrinter.printStatistics]

theorem printLongest_mem_printStatistics (env : Env) (p : stats) :
    ∀ e ∈ statsPlanePrinter.printLongestUptime env (finalUpdate env p)
        ++ statsPlanePrinter.printLongestDowntime env (finalUpdate env p),
      e ∈ (statsPlanePrinter.printStatistics env p).2 := by
  intro e he
  rw [List.mem_append] at he
  simp only [statsPlanePrinter.printStatistics, List.mem_append]
  rcases he with he | he
  · exact Or.inl (Or.inl (Or.inl (Or.inl (Or.inr he))))
  · exact Or.inl (Or.inl (Or.inl (Or.inr he)))

/-- C8, the code at the failing input, and what holds elsewhere. The three
print methods produce nothing when the stored duration is 0 and otherwise
render `calcTime` of the duration rounded up to whole seconds with the
formatted start and end of the interval, and the plain report contains these
renderings; on a store that is up with a zero longest downtime the report
renders no longest-downtime line. On a store whose RTT aggregator has results
(and whose float fields are finite) the object of type `stats` is written and
has `longest_uptime`, `longest_uptime_start` and `longest_uptime_end` exactly
when the duration of the longest uptime, as stored after the tracker call, is
not zero. On the store after five failed probes with a longest uptime of one
second, the structured reporter writes no object at all, so no record carries
the non-zero longest uptime, while the plain report prints it. -/
theorem longest_interval_rendering (env : Env) (p : stats) :
    (p.longestUptime.duration.isZero = true → statsPlanePrinter.printLongestUptime env p = [])
    ∧ (p.longestUptime.duration.isZero = false →
        statsPlanePrinter.printLongestUptime env p =
          [.print .yellow "longest consecutive uptime:   " [],
            .print .green "%v "
              [.str (env.calcTime (toUint env (GoFloat.ceil p.longestUptime.duration)))],
            .print .yellow "from " [],
            .print .lightBlue "%v " [.str (env.Format p.longestUptime.start env.timeFormat)],
            .print .yellow "to " [],
            .print .lightBlue "%v\n" [.str (env.Format p.longestUptime.finish env.timeFormat)]])
    ∧ (p.longestDowntime.duration.isZero = true →
        statsPlanePrinter.printLongestDowntime env p = []
        ∧ statsJsonPrinter.printLongestDowntime env p = [])
    ∧ (p.longestDowntime.duration.isZero = false →
        statsPlanePrinter.printLongestDowntime env p =
          [.print .yellow "longest consecutive downtime: " [],
            .print .red "%v "
              [.str (env.calcTime (toUint env (GoFloat.ceil p.longestDowntime.duration)))],
            .print .yellow "from " [],
            .print .lightBlue "%v " [.str (env.Format p.longestDowntime.start env.timeFormat)],
            .print .yellow "to " [],
            .print .lightBlue "%v\n" [.str (env.Format p.longestDowntime.finish env.timeFormat)]]
        ∧ statsJsonPrinter.printLongestDowntime env p =
          [.json [("message", .str (Sprintf "longest consecutive downtime: %v from %v to %v"
            [.str (env.calcTime (toUint env (GoFloat.ceil p.longestDowntime.duration))),
              .str (env.Format p.longestDowntime.start env.timeFormat),
              .str (env.Format p.longestDowntime.finish env.timeFormat)]))]])
    ∧ (∀ q : ℚ, 0 ≤ q → q ≤ 2 ^ 64 - 1 → toUint env (GoFloat.ceil (.fin q)) = ⌈q⌉.toNat)
    ∧ (∀ e ∈ statsPlanePrinter.printLongestUptime env (finalUpdate env p)
          ++ statsPlanePrinter.printLongestDowntime env (finalUpdate env p),
        e ∈ (statsPlanePrinter.printStatistics env p).2)
    ∧ (p.wasDown = false → p.longestDowntime.duration.isZero = true →
        statsPlanePrinter.printLongestDowntime env (statsPlanePrinter.printStatistics env p).1 = []
        ∧ Event.print .yellow "longest consecutive downtime: " []
            ∉ (statsPlanePrinter.printStatistics env p).2
        ∧ statsJsonPrinter.printLongestDowntime env
            (statsJsonPrinter.printStatistics env p).1 = [])
    ∧ (∀ line ∈ jsonLines (statsJsonPrinter.printStatistics env p).2, line.has "type" = true →
        line.has "longest_uptime" = !(finalUpdate env p).longestUptime.duration.isZero
        ∧ line.get "longest_uptime_start" =
            (if (finalUpdate env p).longestUptime.duration.isZero then none
              else some (.time (finalUpdate env p).longestUptime.start))
        ∧ line.get "longest_uptime_end" =
            (if (finalUpdate env p).longestUptime.duration.isZero then none
              else some (.time (finalUpdate env p).longestUptime.finish)))
    ∧ ((env.findMinAvgMaxRttTime p.rtt).hasResults = true →
        (∃ q, packetLoss p = .fin q) →
        (∃ d, (finalUpdate env p).longestUptime.duration = .fin d) →
        (minDuration ≤ p.totalUptime ∧ p.totalUptime ≤ maxDuration) →
        (minDuration ≤ p.totalDowntime ∧ p.totalDowntime ≤ maxDuration) →
        ∃ line, line ∈ jsonLines (statsJsonPrinter.printStatistics env p).2
          ∧ line.get "type" = some (.str "stats")
          ∧ line.has "longest_uptime" = !(finalUpdate env p).longestUptime.duration.isZero
          ∧ line.has "longest_uptime_start" = !(finalUpdate env p).longestUptime.duration.isZero
          ∧ line.has "longest_uptime_end" = !(finalUpdate env p).longestUptime.duration.isZero)
    ∧ ((finalUpdate (exampleEnv 7000000000) downAfterUpStore).longestUptime.duration.isZero
          = false
        ∧ jsonLines (statsJsonPrinter.printStatistics (exampleEnv 7000000000)
            downAfterUpStore).2 = []
        ∧ Event.print .yellow "longest consecutive uptime:   " []
            ∈ (statsPlanePrinter.printStatistics (exampleEnv 7000000000) downAfterUpStore).2) := by
  have hrecord : ∀ line, (statsJsonPrinter.statisticsData env p (finalUpdate env p)).encode
      = some line →
      line.has "longest_uptime" = !(finalUpdate env p).longestUptime.duration.isZero
      ∧ line.get "longest_uptime_start" =
          (if (finalUpdate env p).longestUptime.duration.isZero then none
            else some (.time (finalUpdate env p).longestUptime.start))
      ∧ line.get "longest_uptime_end" =
          (if (finalUpdate env p).longestUptime.duration.isZero then none
            else some (.time (finalUpdate env p).longestUptime.finish)) := by
    intro line henc
    obtain ⟨h1, h2, h3⟩ := statisticsData_longest env p (finalUpdate env p)
    have hfin := ((encode_isSome_iff _).1 (by rw [henc]; rfl)).2.1
    rw [h1] at hfin
    refine ⟨?_, ?_, ?_⟩
    · rw [Record.has, encode_longest_uptime _ _ henc, h1]
      by_cases hz : (finalUpdate env p).longestUptime.duration.isZero
      · simp [hz, floatValue]
      · simp only [hz, if_false, Bool.false_eq_true] at hfin ⊢
        have := (floatValue_isSome (finalUpdate env p).longestUptime.duration).2
          ⟨hfin, by simpa using hz⟩
        simpa using this
    · rw [encode_longest_uptime_start _ _ henc, h2]
      by_cases hz : (finalUpdate env p).longestUptime.duration.isZero <;> simp [hz]
    · rw [encode_longest_uptime_end _ _ henc, h3]
      by_cases hz : (finalUpdate env p).longestUptime.duration.isZero <;> simp [hz]
  refine ⟨?_, ?_, ?_, ?_, toUint_ceil env, printLongest_mem_printStatistics env p, ?_, ?_, ?_,
    ?_⟩
  · intro h; simp [statsPlanePrinter.printLongestUptime, h]
  · intro h; simp [statsPlanePrinter.printLongestUptime, h]
  · intro h
    simp [statsPlanePrinter.printLongestDowntime, statsJsonPrinter.printLongestDowntime, h]
  · intro h
    simp [statsPlanePrinter.printLongestDowntime, statsJsonPrinter.printLongestDowntime, h,
      jsonPrintf]
  · intro hw hz
    have hd := finalUpdate_longestDowntime env p hw
    refine ⟨?_, ?_, ?_⟩
    · simp [statsPlanePrinter.printStatistics, statsPlanePrinter.printLongestDowntime, hd, hz]
    · simp [statsPlanePrinter.printStatistics, statsPlanePrinter.printLongestDowntime, hd, hz,
        statsPlanePrinter.printLastSucUnsucProbes, statsPlanePrinter.printLongestUptime,
        statsPlanePrinter.printRetryResolveStats, statsPlanePrinter.printRttResults,
        statsPlanePrinter.printDurationStats, finalUpdateCall, hw]
      refine ⟨?_, ?_, ?_⟩ <;> split_ifs <;> simp
    · unfold statsJsonPrinter.printStatistics
      by_cases hr : (env.findMinAvgMaxRttTime p.rtt).hasResults
      · simp [hr, statsJsonPrinter.printLongestDowntime, hd, hz]
      · simp [hr, statsJsonPrinter.printLongestDowntime, hz]
  · intro line hline hty
    obtain ⟨_, henc⟩ := stats_object_of_mem env p line hline hty
    exact hrecord line henc
  · intro hr hl hd hup hdown
    obtain ⟨line, hmem, henc, _⟩ := stats_object_written env p hr hl hd hup hdown
    obtain ⟨_, _, _, _, h5⟩ := statisticsData_TotalPacketLoss env p (finalUpdate env p)
    obtain ⟨r1, r2, r3⟩ := hrecord line henc
    refine ⟨line, hmem, by rw [encode_type _ _ henc, h5], r1, ?_, ?_⟩
    · rw [Record.has, r2]
      by_cases hz : (finalUpdate env p).longestUptime.duration.isZero <;> simp [hz]
    · rw [Record.has, r3]
      by_cases hz : (finalUpdate env p).longestUptime.duration.isZero <;> simp [hz]
  · have hz : (finalUpdate (exampleEnv 7000000000) downAfterUpStore).longestUptime.duration
        = .fin 1 := rfl
    refine ⟨by rw [hz]; simp [GoFloat.isZero], ?_, ?_⟩
    · simp [statsJsonPrinter.printStatistics, exampleEnv, downAfterUpStore, allFailedStore,
        exampleStore, findMinAvgMaxRttTime, jsonLines]
    · apply printLongest_mem_printStatistics
      rw [List.mem_append]
      left
      simp [statsPlanePrinter.printLongestUptime, hz, GoFloat.isZero]

theorem trackerCalls_plane (env : Env) (p : stats) :
    trackerCalls (statsPlanePrinter.printStatistics env p).2 = [finalUpdateCall p] := by
  have h1 : ∀ q, trackerCalls (statsPlanePrinter.printLastSucUnsucProbes env q) = [] := by
    intro q
    simp only [statsPlanePrinter.printLastSucUnsucProbes]
    split_ifs <;> rfl
  have h2 : ∀ q, trackerCalls (statsPlanePrinter.printLongestUptime env q) = [] := by
    intro q
    simp only [statsPlanePrinter.printLongestUptime]
    split_ifs <;> rfl
  have h3 : ∀ q, trackerCalls (statsPlanePrinter.printLongestDowntime env q) = [] := by
    intro q
    simp only [statsPlanePrinter.printLongestDowntime]
    split_ifs <;> rfl
  have h4 : ∀ q, trackerCalls (statsPlanePrinter.printDurationStats env q) = [] := by
    intro q
    simp only [statsPlanePrinter.printDurationStats]
    split_ifs <;> rfl
  have h5 : trackerCalls [finalUpdateCall p] = [finalUpdateCall p] := by
    cases hw : p.wasDown <;> simp [finalUpdateCall, hw, trackerCalls]
  simp only [statsPlanePrinter.printStatistics, trackerCalls_append, h1, h2, h3, h4, h5]
  split_ifs <;> simp [trackerCalls, statsPlanePrinter.printRetryResolveStats,
    statsPlanePrinter.printRttResults]

theorem trackerCalls_json (env : Env) (j : stats)
    (hr : (env.findMinAvgMaxRttTime j.rtt).hasResults = true) :
    trackerCalls (statsJsonPrinter.printStatistics env j).2 = [finalUpdateCall j] := by
  have h3 : ∀ q, trackerCalls (statsJsonPrinter.printLongestDowntime env q) = [] := by
    intro q
    simp only [statsJsonPrinter.printLongestDowntime]
    split_ifs <;> rfl
  have h5 : trackerCalls [finalUpdateCall j] = [finalUpdateCall j] := by
    cases hw : j.wasDown <;> simp [finalUpdateCall, hw, trackerCalls]
  have h6 : ∀ d, trackerCalls (printJson d) = [] := by
    intro d
    unfold printJson
    cases d.encode <;> rfl
  simp only [statsJsonPrinter.printStatistics, hr, Bool.not_true, Bool.false_eq_true, if_false,
    trackerCalls_append, h3, h5, h6]
  split_ifs <;> simp [trackerCalls, statsJsonPrinter.printRetryResolveStats, jsonPrintf,
    statsJsonPrinter.printDurationStats]

/-- C9, as amended. Before rendering the longest intervals, `printStatistics`
performs exactly one interval-tracker update for the open period, and its
reference timestamp is the store's time of the last probe of the matching kind,
not the clock: `calcLongestUptime(stats, lastSuccessfulProbe)` when the store is
not down, `calcLongestDowntime(stats, lastUnsuccessfulProbe)` when it is, and
never the other one; the longest intervals are rendered from the store so
updated. This holds in the plain reporter for every store, and in the
structured reporter for every store whose RTT aggregator has results. -/
theorem final_tracker_update (env : Env) (p : stats) :
    trackerCalls (statsPlanePrinter.printStatistics env p).2 =
      [if p.wasDown = true then Event.longestDowntimeUpdate p.lastUnsuccessfulProbe
        else Event.longestUptimeUpdate p.lastSuccessfulProbe]
    ∧ (statsPlanePrinter.printStatistics env p).1 =
        (if p.wasDown = true then calcLongestDowntime env p p.lastUnsuccessfulProbe
          else calcLongestUptime env p p.lastSuccessfulProbe)
    ∧ (∃ before after, (statsPlanePrinter.printStatistics env p).2 =
          before
          ++ [if p.wasDown = true then Event.longestDowntimeUpdate p.lastUnsuccessfulProbe
              else Event.longestUptimeUpdate p.lastSuccessfulProbe]
          ++ statsPlanePrinter.printLongestUptime env (statsPlanePrinter.printStatistics env p).1
          ++ statsPlanePrinter.printLongestDowntime env (statsPlanePrinter.printStatistics env p).1
          ++ after)
    ∧ ((env.findMinAvgMaxRttTime p.rtt).hasResults = true →
        trackerCalls (statsJsonPrinter.printStatistics env p).2 =
          [if p.wasDown = true then Event.longestDowntimeUpdate p.lastUnsuccessfulProbe
            else Event.longestUptimeUpdate p.lastSuccessfulProbe]
        ∧ (statsJsonPrinter.printStatistics env p).1 =
            (if p.wasDown = true then calcLongestDowntime env p p.lastUnsuccessfulProbe
              else calcLongestUptime env p p.lastSuccessfulProbe)
        ∧ (∃ after, (statsJsonPrinter.printStatistics env p).2 =
            [if p.wasDown = true then Event.longestDowntimeUpdate p.lastUnsuccessfulProbe
              else Event.longestUptimeUpdate p.lastSuccessfulProbe]
            ++ statsJsonPrinter.printLongestDowntime env (statsJsonPrinter.printStatistics env p).1
            ++ after ++ printJson (statsJsonPrinter.statisticsData env p
                (statsJsonPrinter.printStatistics env p).1))) := by
  have hcall : finalUpdateCall p =
      (if p.wasDown = true then Event.longestDowntimeUpdate p.lastUnsuccessfulProbe
        else Event.longestUptimeUpdate p.lastSuccessfulProbe) := by
    cases hw : p.wasDown <;> simp [finalUpdateCall, hw]
  have hupd : finalUpdate env p =
      (if p.wasDown = true then calcLongestDowntime env p p.lastUnsuccessfulProbe
        else calcLongestUptime env p p.lastSuccessfulProbe) := by
    cases hw : p.wasDown <;> simp [finalUpdate, hw]
  refine ⟨?_, ?_, ?_, ?_⟩
  · rw [trackerCalls_plane, hcall]
  · rw [← hupd]; rfl
  · rw [← hcall]
    refine ⟨(if !p.isIP then
          [.print .yellow "\n--- %s (%s) TCPing statistics ---\n"
            [.str p.hostname, .str p.ip.String]]
        else [.print .yellow "\n--- %s TCPing statistics ---\n" [.str p.hostname]])
      ++ [.print .yellow "%d probes transmitted on port %d | "
            [.uint (totalPackets p), .uint p.port],
          .print .yellow "%d received, " [.uint p.totalSuccessfulProbes],
          .print (statsPlanePrinter.packetLossColor (packetLoss p)) "%.2f%%"
            [.float (packetLoss p)],
          .print .yellow " packet loss\n" [],
          .print .yellow "successful probes:   " [],
          .print .green "%d\n" [.uint p.totalSuccessfulProbes],
          .print .yellow "unsuccessful probes: " [],
          .print .red "%d\n" [.uint p.totalUnsuccessfulProbes]]
      ++ statsPlanePrinter.printLastSucUnsucProbes env p
      ++ [.print .yellow "total uptime: " [],
          .print .green "  %s\n"
            [.str (env.calcTime (toUint env (Duration.Seconds p.totalUptime)))],
          .print .yellow "total downtime: " [],
          .print .red "%s\n"
            [.str (env.calcTime (toUint env (Duration.Seconds p.totalDowntime)))]],
      (if !(finalUpdate env p).isIP then
          statsPlanePrinter.printRetryResolveStats (finalUpdate env p) else [])
      ++ (if (env.findMinAvgMaxRttTime (finalUpdate env p).rtt).hasResults then
          statsPlanePrinter.printRttResults (env.findMinAvgMaxRttTime (finalUpdate env p).rtt)
          else [])
      ++ statsPlanePrinter.printDurationStats env (finalUpdate env p), ?_⟩
    simp only [statsPlanePrinter.printStatistics, List.append_assoc]
  · intro hr
    refine ⟨?_, ?_, ?_⟩
    · rw [trackerCalls_json env p hr, hcall]
    · rw [← hupd]; simp [statsJsonPrinter.printStatistics, hr]
    · rw [← hcall]
      refine ⟨(if !(finalUpdate env p).isIP then
            statsJsonPrinter.printRetryResolveStats (finalUpdate env p) else [])
        ++ jsonPrintf "rtt min/avg/max: %.3f/%.3f/%.3f"
            [.float (env.findMinAvgMaxRttTime p.rtt).min,
              .float (env.findMinAvgMaxRttTime p.rtt).average,
              .float (env.findMinAvgMaxRttTime p.rtt).max]
        ++ statsJsonPrinter.printDurationStats env (finalUpdate env p), ?_⟩
      simp only [statsJsonPrinter.printStatistics, hr, Bool.not_true,
        Bool.false_eq_true, if_false, List.append_assoc]

/-- C9, witness: the store after five successful probes, the last at second 6,
reported at second 12. -/
theorem final_tracker_update_witness :
    trackerCalls (statsJsonPrinter.printStatistics (exampleEnv 12000000000)
        allSucceededStore).2 = [Event.longestUptimeUpdate 6000000000] :=
  ((final_tracker_update (exampleEnv 12000000000) allSucceededStore).2.2.2 rfl).1

/-- C9, counterexample. The store's last successful probe was at second 6 and
the report is made at second 12: the one tracker call of the plain
`printStatistics` has second 6 as its reference timestamp, not the current
instant. -/
theorem final_tracker_update_not_now :
    trackerCalls (statsPlanePrinter.printStatistics (exampleEnv 12000000000)
        allSucceededStore).2 = [Event.longestUptimeUpdate 6000000000]
    ∧ trackerCalls (statsPlanePrinter.printStatistics (exampleEnv 12000000000)
        allSucceededStore).2 ≠ [Event.longestUptimeUpdate (exampleEnv 12000000000).now] := by
  have h : trackerCalls (statsPlanePrinter.printStatistics (exampleEnv 12000000000)
      allSucceededStore).2 = [Event.longestUptimeUpdate 6000000000] := by
    rw [trackerCalls_plane]; rfl
  refine ⟨h, ?_⟩
  rw [h]
  simp [exampleEnv]

/-- C10, as amended. In the object of type `stats` written by
`statsJsonPrinter.printStatistics`, a zero value is not distinguishable from an
absent field: each of `total_packet_loss`, `total_packets`,
`total_successful_probes` and `total_unsuccessful_probes` is present exactly
when its value is not zero (`omitempty` drops a zero), so `total_packet_loss`
is absent when no probe failed; `last_successful_probe` and
`last_unsuccessful_probe` are present exactly when the store's timestamp is not
the zero time, with the store's value, so the zero time never appears there. -/
theorem stats_object_zero_fields_omitted (env : Env) (j : stats) :
    (∀ line ∈ jsonLines (statsJsonPrinter.printStatistics env j).2, line.has "type" = true →
      line.get "type" = some (.str "stats")
      ∧ line.has "message" = true ∧ line.has "timestamp" = true
      ∧ (line.has "total_packet_loss" = true ↔ (packetLoss j).isZero = false)
      ∧ (∀ v, line.get "total_packet_loss" = some v →
          ∃ q, q ≠ 0 ∧ packetLoss j = .fin q ∧ v = .number q)
      ∧ line.get "total_packets" =
          (if totalPackets j = 0 then none else some (.uint (totalPackets j)))
      ∧ line.get "total_successful_probes" =
          (if j.totalSuccessfulProbes = 0 then none
            else some (.uint j.totalSuccessfulProbes))
      ∧ line.get "total_unsuccessful_probes" =
          (if j.totalUnsuccessfulProbes = 0 then none
            else some (.uint j.totalUnsuccessfulProbes))
      ∧ line.get "last_successful_probe" =
          (if j.lastSuccessfulProbe = 0 then none else some (.time j.lastSuccessfulProbe))
      ∧ line.get "last_unsuccessful_probe" =
          (if j.lastUnsuccessfulProbe = 0 then none else some (.time j.lastUnsuccessfulProbe))
      ∧ line.get "last_successful_probe" ≠ some (.time 0)
      ∧ line.get "last_unsuccessful_probe" ≠ some (.time 0))
    ∧ (j.totalUnsuccessfulProbes < 2 ^ 64 → 0 < totalPackets j →
        ((packetLoss j).isZero = true ↔ j.totalUnsuccessfulProbes = 0)) := by
  refine ⟨?_, packetLoss_isZero_iff j⟩
  intro line hline hty
  obtain ⟨_, henc⟩ := stats_object_of_mem env j line hline hty
  obtain ⟨h1, h2, h3, h4, h5⟩ := statisticsData_TotalPacketLoss env j (finalUpdate env j)
  obtain ⟨h6, h7⟩ := statisticsData_last env j (finalUpdate env j)
  have hfin := ((encode_isSome_iff _).1 (by rw [henc]; rfl)).2.2.1
  rw [h1] at hfin
  refine ⟨?_, ?_, ?_, ?_, ?_, ?_, ?_, ?_, ?_, ?_, ?_, ?_⟩
  · rw [encode_type _ _ henc, h5]
  · rw [Record.has, encode_message _ _ henc]; rfl
  · rw [Record.has, encode_timestamp _ _ henc]; rfl
  · rw [Record.has, encode_total_packet_loss _ _ henc, h1, floatValue_isSome]
    simp [hfin]
  · intro v hv
    rw [encode_total_packet_loss _ _ henc, h1] at hv
    obtain ⟨q, hq, hq0, hvq⟩ := floatValue_eq_some _ _ hv
    exact ⟨q, hq0, hq, hvq⟩
  · rw [encode_total_packets _ _ henc, h2]
  · rw [encode_total_successful_probes _ _ henc, h3]
  · rw [encode_total_unsuccessful_probes _ _ henc, h4]
  · rw [encode_last_successful_probe _ _ henc, h6]
    split_ifs <;> rfl
  · rw [encode_last_unsuccessful_probe _ _ henc, h7]
    split_ifs <;> rfl
  · rw [encode_last_successful_probe _ _ henc, h6]
    split_ifs with h
    · simp
    · simpa using h
  · rw [encode_last_unsuccessful_probe _ _ henc, h7]
    split_ifs with h
    · simp
    · simpa using h

/-- C10, witness: the object written for the store after five successful
probes has its `last_successful_probe`, second 6, and no
`last_unsuccessful_probe`. -/
theorem stats_object_zero_fields_omitted_witness :
    ∃ line, line ∈ jsonLines (statsJsonPrinter.printStatistics (exampleEnv 12000000000)
        allSucceededStore).2
      ∧ line.get "last_successful_probe" = some (.time 6000000000)
      ∧ line.get "last_unsuccessful_probe" = none := by
  obtain ⟨line, hmem, henc⟩ := allSucceeded_stats_object
  have hty : line.has "type" = true := by rw [Record.has, encode_type _ _ henc]; rfl
  have h := (stats_object_zero_fields_omitted (exampleEnv 12000000000) allSucceededStore).1
    line hmem hty
  exact ⟨line, hmem, h.2.2.2.2.2.2.2.2.1, h.2.2.2.2.2.2.2.2.2.1⟩

/-- C10, counterexample. For the store after five successful probes and no
failed one, an object of type `stats` is written, and it has neither
`total_packet_loss` nor `total_unsuccessful_probes`: the zero packet loss is
absent, not present with value 0. -/
theorem stats_object_zero_loss_absent :
    ∃ line, line ∈ jsonLines (statsJsonPrinter.printStatistics (exampleEnv 12000000000)
        allSucceededStore).2
      ∧ line.get "type" = some (.str "stats")
      ∧ line.has "total_packets" = true
      ∧ line.has "total_packet_loss" = false
      ∧ line.has "total_unsuccessful_probes" = false := by
  obtain ⟨line, hmem, henc⟩ := allSucceeded_stats_object
  obtain ⟨h1, h2, _, h4, h5⟩ := statisticsData_TotalPacketLoss (exampleEnv 12000000000)
    allSucceededStore (finalUpdate (exampleEnv 12000000000) allSucceededStore)
  have hpl : packetLoss allSucceededStore = .fin 0 :=
    packetLoss_eq_zero allSucceededStore rfl (by decide)
  refine ⟨line, hmem, ?_, ?_, ?_, ?_⟩
  · rw [encode_type _ _ henc, h5]
  · rw [Record.has, encode_total_packets _ _ henc, h2]; rfl
  · rw [Record.has, encode_total_packet_loss _ _ henc, h1, hpl]; rfl
  · rw [Record.has, encode_total_unsuccessful_probes _ _ henc, h4]; rfl

end Tcping
